import Mathlib

/-!
Verification development for the `ava` car-buying-assistant repository.

The Python sources (`planner.py`, `agent_controller.py`, `all_tools.py`,
`ava_client.py`) are shallowly embedded below: JSON values become an
inductive `Json` type, Python dicts become association lists, stateful
database code becomes explicit state passing over lists of rows, and the
external conversational backend becomes an oracle recording per-call
outcomes.  Fallible Python code (raising) is modelled with `Option`.
-/

namespace Ava

/-- JSON values as produced by the Python `json.loads`.  Non-integral numbers
keep their literal text (`float`); their numeric value is never used by the
embedded code paths.  Objects behave like Python dicts: keys are unique,
in first-insertion order, later duplicate keys overwrite the value. -/
inductive Json where
  | null : Json
  | bool (b : Bool) : Json
  | int (n : Int) : Json
  | float (s : String) : Json
  | str (s : String) : Json
  | arr (xs : List Json) : Json
  | obj (kvs : List (String × Json)) : Json

/-- Python whitespace characters (the ASCII subset relevant here). -/
def isPyWs (c : Char) : Bool :=
  c = ' ' || c = '\t' || c = '\n' || c = '\r' || c.toNat = 11 || c.toNat = 12

def lstripL (cs : List Char) : List Char := cs.dropWhile isPyWs

def rstripL (cs : List Char) : List Char := (cs.reverse.dropWhile isPyWs).reverse

/-- Python `str.strip()`. -/
def pyStrip (s : String) : String := String.mk (rstripL (lstripL s.data))

/-- Python `str.lower()` (ASCII). -/
def pyLower (s : String) : String := String.mk (s.data.map Char.toLower)

/-- Whether `pre` is a prefix of `cs`. -/
def startsWithL : List Char → List Char → Bool
  | [], _ => true
  | _ :: _, [] => false
  | p :: ps, c :: cs => p = c && startsWithL ps cs

/-- Whether `needle` occurs as a contiguous sublist of `hay`. -/
def occursWithin (needle : List Char) : List Char → Bool
  | [] => needle.isEmpty
  | c :: cs => startsWithL needle (c :: cs) || occursWithin needle cs

/-- SQL lowered LIKE with percent wildcards on both sides: substring test. -/
def containsSub (hay needle : String) : Bool := occursWithin needle.data hay.data

/-- JSON whitespace accepted by `json.loads` between tokens. -/
def isJsonWs (c : Char) : Bool := c = ' ' || c = '\t' || c = '\n' || c = '\r'

def skipJsonWs (cs : List Char) : List Char := cs.dropWhile isJsonWs

def hexVal (c : Char) : Option Nat :=
  if '0' ≤ c ∧ c ≤ '9' then some (c.toNat - 48)
  else if 'a' ≤ c ∧ c ≤ 'f' then some (c.toNat - 87)
  else if 'A' ≤ c ∧ c ≤ 'F' then some (c.toNat - 55)
  else none

def escChar (c : Char) : Option Char :=
  if c = '"' then some '"'
  else if c = '\\' then some '\\'
  else if c = '/' then some '/'
  else if c = 'n' then some '\n'
  else if c = 't' then some '\t'
  else if c = 'r' then some '\r'
  else if c = 'b' then some (Char.ofNat 8)
  else if c = 'f' then some (Char.ofNat 12)
  else none

/-- Body of a JSON string literal after the opening quote.  Strict mode:
raw control characters are rejected, as in `json.loads`.  (Surrogate-pair
recombination for `\uXXXX` escapes is not modelled.) -/
def parseStrBody : List Char → List Char → Option (String × List Char)
  | [], _ => none
  | '"' :: rest, acc => some (String.mk acc.reverse, rest)
  | '\\' :: rest, acc =>
    match rest with
    | 'u' :: a :: b :: c :: d :: r =>
      match hexVal a, hexVal b, hexVal c, hexVal d with
      | some ha, some hb, some hc, some hd =>
        parseStrBody r (Char.ofNat (((ha * 16 + hb) * 16 + hc) * 16 + hd) :: acc)
      | _, _, _, _ => none
    | e :: r =>
      match escChar e with
      | some ch => parseStrBody r (ch :: acc)
      | none => none
    | [] => none
  | c :: rest, acc => if c.toNat < 32 then none else parseStrBody rest (c :: acc)

def digitsToNat (cs : List Char) : Nat :=
  cs.foldl (fun a c => a * 10 + (c.toNat - 48)) 0

/-- JSON number token.  Integral literals become `Json.int`; literals with a
fraction or exponent keep their text as `Json.float`. -/
def parseNumber (cs : List Char) : Option (Json × List Char) :=
  let sgn : List Char := if cs.head? = some '-' then ['-'] else []
  let cs1 := if cs.head? = some '-' then cs.drop 1 else cs
  let ds := cs1.takeWhile Char.isDigit
  let r1 := cs1.drop ds.length
  if ds.isEmpty then none
  else if ds.length > 1 && ds.head? = some '0' then none
  else
    let afterFrac : Option (List Char × List Char) :=
      match r1 with
      | '.' :: r2 =>
        let fs := r2.takeWhile Char.isDigit
        if fs.isEmpty then none else some ('.' :: fs, r2.drop fs.length)
      | _ => some ([], r1)
    match afterFrac with
    | none => none
    | some (fracTok, r2) =>
      let expo : Option (List Char × List Char) :=
        match r2 with
        | e :: r3 =>
          if e = 'e' ∨ e = 'E' then
            let sgn2 : List Char :=
              if r3.head? = some '+' ∨ r3.head? = some '-' then [r3.headD ' '] else []
            let r4 := r3.drop sgn2.length
            let es := r4.takeWhile Char.isDigit
            if es.isEmpty then none else some (e :: (sgn2 ++ es), r4.drop es.length)
          else some ([], r2)
        | [] => some ([], r2)
      match expo with
      | none => none
      | some (expTok, rest) =>
        if fracTok.isEmpty ∧ expTok.isEmpty then
          let n : Int := Int.ofNat (digitsToNat ds)
          some (.int (if sgn.isEmpty then n else -n), rest)
        else
          some (.float (String.mk (sgn ++ ds ++ fracTok ++ expTok)), rest)

/-- Insert into a Python-dict-style association list: an existing key keeps
its position but gets the new value; a new key is appended. -/
def objInsert (kvs : List (String × Json)) (k : String) (v : Json) :
    List (String × Json) :=
  if kvs.any (fun kv => kv.1 = k) then
    kvs.map (fun kv => if kv.1 = k then (k, v) else kv)
  else kvs ++ [(k, v)]

mutual

/-- One JSON value, fuel-bounded recursive descent. -/
def parseVal : Nat → List Char → Option (Json × List Char)
  | 0, _ => none
  | Nat.succ fuel, cs =>
    match skipJsonWs cs with
    | 'n' :: 'u' :: 'l' :: 'l' :: rest => some (.null, rest)
    | 't' :: 'r' :: 'u' :: 'e' :: rest => some (.bool true, rest)
    | 'f' :: 'a' :: 'l' :: 's' :: 'e' :: rest => some (.bool false, rest)
    | '"' :: rest => (parseStrBody rest []).map (fun p => (.str p.1, p.2))
    | '[' :: rest =>
      (match skipJsonWs rest with
       | ']' :: r => some (.arr [], r)
       | r => parseArrItems fuel r [])
    | '\x7b' :: rest =>
      (match skipJsonWs rest with
       | '\x7d' :: r => some (.obj [], r)
       | r => parseObjItems fuel r [])
    | cs' => parseNumber cs'

def parseArrItems : Nat → List Char → List Json → Option (Json × List Char)
  | 0, _, _ => none
  | Nat.succ fuel, cs, acc =>
    match parseVal fuel cs with
    | none => none
    | some (v, rest) =>
      match skipJsonWs rest with
      | ',' :: r => parseArrItems fuel r (v :: acc)
      | ']' :: r => some (.arr (v :: acc).reverse, r)
      | _ => none

def parseObjItems : Nat → List Char → List (String × Json) →
    Option (Json × List Char)
  | 0, _, _ => none
  | Nat.succ fuel, cs, acc =>
    match skipJsonWs cs with
    | '"' :: rest =>
      (match parseStrBody rest [] with
       | none => none
       | some (k, r1) =>
         match skipJsonWs r1 with
         | ':' :: r2 =>
           (match parseVal fuel r2 with
            | none => none
            | some (v, r3) =>
              match skipJsonWs r3 with
              | ',' :: r4 => parseObjItems fuel r4 (objInsert acc k v)
              | '\x7d' :: r4 => some (.obj (objInsert acc k v), r4)
              | _ => none)
         | _ => none)
    | _ => none

end

/-- Python `json.loads`: whole-input parse, `none` models a raised
`JSONDecodeError`. -/
def json_loads (s : String) : Option Json :=
  match parseVal (2 * s.data.length + 2) s.data with
  | some (v, rest) => if (skipJsonWs rest).isEmpty then some v else none
  | none => none

def stripBoth (cs : List Char) : List Char := rstripL (lstripL cs)

mutual

/-- Python `repr`, as used when containers are interpolated into strings
(string quoting is approximated without escape re-encoding). -/
def pyRepr : Json → String
  | .null => "None"
  | .bool true => "True"
  | .bool false => "False"
  | .int n => toString n
  | .float s => s
  | .str s => "\x27" ++ s ++ "\x27"
  | .arr xs => "[" ++ pyReprItems xs ++ "]"
  | .obj kvs => "\x7b" ++ pyReprPairs kvs ++ "\x7d"

def pyReprItems : List Json → String
  | [] => ""
  | [x] => pyRepr x
  | x :: y :: r => pyRepr x ++ ", " ++ pyReprItems (y :: r)

def pyReprPairs : List (String × Json) → String
  | [] => ""
  | [(k, v)] => "\x27" ++ k ++ "\x27: " ++ pyRepr v
  | (k, v) :: p :: r => "\x27" ++ k ++ "\x27: " ++ pyRepr v ++ ", " ++ pyReprPairs (p :: r)

end

/-- Python `str()` of a JSON-decoded value. -/
def pyStr : Json → String
  | .null => "None"
  | .bool true => "True"
  | .bool false => "False"
  | .int n => toString n
  | .float s => s
  | .str s => s
  | .arr xs => pyRepr (.arr xs)
  | .obj kvs => pyRepr (.obj kvs)

/-- A numeric literal text denotes a value other than zero. -/
def mantissaNonzero (s : String) : Bool :=
  (s.data.takeWhile (fun c => c ≠ 'e' ∧ c ≠ 'E')).any
    (fun c => c.isDigit && c ≠ '0')

/-- Python truthiness of a JSON-decoded value. -/
def pyTruthy : Json → Bool
  | .null => false
  | .bool b => b
  | .int n => n ≠ 0
  | .float s => mantissaNonzero s
  | .str s => s ≠ ""
  | .arr xs => !xs.isEmpty
  | .obj kvs => !kvs.isEmpty

/-- Python `int(s)` on a string. -/
def parseIntStr (s : String) : Option Int :=
  let cs := stripBoth s.data
  let neg := cs.head? = some '-'
  let ds := if cs.head? = some '-' ∨ cs.head? = some '+' then cs.drop 1 else cs
  if ds ≠ [] ∧ ds.all Char.isDigit then
    some (if neg then -(Int.ofNat (digitsToNat ds)) else Int.ofNat (digitsToNat ds))
  else none

/-- Python `int(v)`; `none` models a raised `ValueError`/`TypeError`.
Floats are truncated toward zero; exponent-notation float literals are not
converted (a model boundary, irrelevant to the embedded call sites). -/
def pyToInt : Json → Option Int
  | .bool b => some (if b then 1 else 0)
  | .int n => some n
  | .float s =>
    if s.data.any (fun c => c = 'e' ∨ c = 'E') then none
    else parseIntStr (String.mk (s.data.takeWhile (fun c => c ≠ '.')))
  | .str s => parseIntStr s
  | _ => none

/-- A Python dict with string keys, e.g. a parsed plan or a tool `args`. -/
abbrev Dict := List (String × Json)

/-- Python dict lookup, as in `d.get(k)`. -/
def dGet (d : Dict) (k : String) : Option Json :=
  (d.find? (fun kv => kv.1 = k)).map (fun kv => kv.2)

/-- Python membership test `k in d`. -/
def dHas (d : Dict) (k : String) : Bool := d.any (fun kv => kv.1 = k)

/-- The result dict every tool returns:
`\x7b"status": ..., "message": ..., ["code": ...], ["data": ...]\x7d`. -/
structure ToolResult where
  status : String
  code : Option String := none
  message : String
  data : Option Json := none

/-! ## Plan validation (`planner.py`) -/

/-- The list `ALLOWED_TOOL_NAMES = [tool.name for tool in ALL_TOOLS]` of `tools.py`. -/
def ALLOWED_TOOL_NAMES : List String :=
  ["get_buyer_availability", "add_buyer_schedule", "remove_buyer_schedule",
   "update_buyer_schedule", "car_retrieve", "car_update", "car_add",
   "get_all_cars", "pickup_retrieve", "pickup_update", "pickup_add",
   "get_all_pickups", "get_closest", "send_escalate_message"]

def isActionEq (plan : Dict) (a : String) : Bool :=
  match dGet plan "action" with
  | some (.str s) => s = a
  | _ => false

/-- Membership test `name in ALLOWED_TOOL_NAMES` (names are strings; any other value type
fails the membership test). -/
def nameAllowed : Option Json → Bool
  | some (.str s) => decide (s ∈ ALLOWED_TOOL_NAMES)
  | _ => false

/-- Function `validate_plan` of `planner.py`.  Returns `none` if valid, or the error
string of the first violation. -/
def validate_plan : Json → Option String
  | .obj plan =>
    if ¬ (isActionEq plan "chat" ∨ isActionEq plan "tool") then
      some "action must be \x27chat\x27 or \x27tool\x27"
    else if isActionEq plan "chat" then
      match dGet plan "answer" with
      | some (.str _) => none
      | _ => some "chat plan must include string \x27answer\x27"
    else
      let name := dGet plan "name"
      if ¬ nameAllowed name then
        some ("unknown tool \x27" ++ pyStr (name.getD .null) ++ "\x27")
      else
        match dGet plan "args" with
        | some (.obj argl) =>
          if dHas argl "sqlite_path" ∨ dHas argl "lead_id" ∨
             dHas argl "buyer_id" ∨ dHas argl "receiver_number" then
            some "args must not include sqlite_path, lead_id, buyer_id, or receiver_number"
          else if dHas argl "buyer_offer_cents" then
            some "args must not include buyer_offer_cents (only GMTV employees can set the company\x27s offer)"
          else none
        | _ => some "tool plan must include object \x27args\x27"
  | _ => some "plan is not a JSON object"

/-- Violations in the order the claim enumerates them. -/
inductive PlanViolation where
  | notMapping : PlanViolation
  | badAction : PlanViolation
  | chatAnswer : PlanViolation
  | unknownTool (nm : Option Json) : PlanViolation
  | argsNotMapping : PlanViolation
  | sessionOwnedKey : PlanViolation
  | restrictedField : PlanViolation

/-- First violation as the claim describes the validator: a mapping with
action exactly chat plus a present string answer, or action exactly tool
with an allowed name, mapping args, no session-owned key among
sqlite_path / lead_id / buyer_id / receiver_number, and no
buyer_offer_cents. -/
def specFirstViolation (p : Json) : Option PlanViolation :=
  match p with
  | .obj plan =>
    if isActionEq plan "chat" then
      match dGet plan "answer" with
      | some (.str _) => none
      | _ => some .chatAnswer
    else if isActionEq plan "tool" then
      match dGet plan "name" with
      | some (.str s) =>
        if s ∈ ALLOWED_TOOL_NAMES then
          match dGet plan "args" with
          | some (.obj argl) =>
            if dHas argl "sqlite_path" ∨ dHas argl "lead_id" ∨
               dHas argl "buyer_id" ∨ dHas argl "receiver_number" then
              some .sessionOwnedKey
            else if dHas argl "buyer_offer_cents" then some .restrictedField
            else none
          | _ => some .argsNotMapping
        else some (.unknownTool (dGet plan "name"))
      | _ => some (.unknownTool (dGet plan "name"))
    else some .badAction
  | _ => some .notMapping

/-- The error string the code produces for each violation kind. -/
def violationMsg : PlanViolation → String
  | .notMapping => "plan is not a JSON object"
  | .badAction => "action must be \x27chat\x27 or \x27tool\x27"
  | .chatAnswer => "chat plan must include string \x27answer\x27"
  | .unknownTool nm => "unknown tool \x27" ++ pyStr (nm.getD .null) ++ "\x27"
  | .argsNotMapping => "tool plan must include object \x27args\x27"
  | .sessionOwnedKey =>
    "args must not include sqlite_path, lead_id, buyer_id, or receiver_number"
  | .restrictedField =>
    "args must not include buyer_offer_cents (only GMTV employees can set the company\x27s offer)"

/-! ## Plan extraction (`planner.py`, `extract_json_block`) -/

/-- Lazy close for the fenced-block regex group `(\x7b.*?\x7d)` followed by
`\s*` and three backticks: the first closing brace whose tail matches wins.
`acc` holds the chars between the braces so far, reversed. -/
def lazyClose : List Char → List Char → Option (List Char)
  | [], _ => none
  | c :: rest, acc =>
    if c = '\x7d' ∧ startsWithL ['`', '`', '`'] (rest.dropWhile isPyWs) then
      some (('\x7b' :: acc.reverse) ++ ['\x7d'])
    else lazyClose rest (c :: acc)

/-- After "```json" and optional whitespace the group must open with a
brace. -/
def fenceBody : List Char → Option (List Char)
  | '\x7b' :: rest => lazyClose rest []
  | _ => none

/-- Model of the regex search of the fenced-block pattern: leftmost occurrence of
"```json" whose tail completes the pattern; returns the brace-delimited
group. -/
def findFence : List Char → Option (List Char)
  | [] => none
  | c :: rest =>
    if startsWithL "```json".data (c :: rest) then
      match fenceBody (((c :: rest).drop 7).dropWhile isPyWs) with
      | some grp => some grp
      | none => findFence rest
    else findFence rest

def isOpenBrace (d : Char) : Bool := d = '\x7b'

def isCloseBrace (d : Char) : Bool := d = '\x7d'

/-- Prefix of `cs` ending at the last closing brace. -/
def takeToLastClose (cs : List Char) : List Char :=
  (cs.reverse.dropWhile (fun d => !(isCloseBrace d))).reverse

/-- Model of the regex search of the greedy fallback pattern under
`re.S`: from the leftmost opening brace that still has a closing brace
after it, all the way to the last closing brace of the text. -/
def braceCandidate : List Char → Option (List Char)
  | [] => none
  | c :: rest =>
    if isOpenBrace c ∧ rest.any isCloseBrace then
      some ('\x7b' :: takeToLastClose rest)
    else braceCandidate rest

/-- Function `extract_json_block` of `planner.py`: prefer the ```json fenced block,
fall back to the greedy brace span, return `none` (never raise) when
nothing parses. -/
def extract_json_block (text : String) : Option Json :=
  let candidate : Option (List Char) :=
    match findFence text.data with
    | some g => some g
    | none => braceCandidate text.data
  match candidate with
  | none => none
  | some cs => json_loads (String.mk cs)

/-- Claim-side stage 2 (written from the spec words, for comparison): the
first *balanced* brace-delimited substring.  `depth` is the number of
still-open braces, `acc` the span so far, reversed. -/
def balancedScan : List Char → Nat → List Char → Option (List Char)
  | [], _, _ => none
  | c :: rest, depth, acc =>
    if c = '\x7d' then
      if depth = 1 then some ((c :: acc).reverse)
      else balancedScan rest (depth - 1) (c :: acc)
    else if c = '\x7b' then balancedScan rest (depth + 1) (c :: acc)
    else balancedScan rest depth (c :: acc)

def firstBalancedSpan : List Char → Option (List Char)
  | [] => none
  | c :: rest =>
    if c = '\x7b' then balancedScan rest 1 ['\x7b']
    else firstBalancedSpan rest

/-- The extractor the claim describes: fenced block first, otherwise the
first balanced brace-delimited substring. -/
def specExtractBalanced (text : String) : Option Json :=
  match findFence text.data with
  | some g => json_loads (String.mk g)
  | none =>
    match firstBalancedSpan text.data with
    | none => none
    | some cs => json_loads (String.mk cs)

/-- Index of the first element satisfying `p`. -/
def firstIdxOf (p : Char → Bool) : List Char → Option Nat
  | [] => none
  | c :: rest => if p c then some 0 else (firstIdxOf p rest).map (fun n => n + 1)

/-- Claim-side phrasing of the greedy stage-2 span: from the first opening
brace to the last closing brace of the text, by index arithmetic. -/
def specGreedySpan (cs : List Char) : Option (List Char) :=
  match firstIdxOf isOpenBrace cs, firstIdxOf isCloseBrace cs.reverse with
  | some i, some jr =>
    if i < cs.length - 1 - jr then
      some ((cs.take (cs.length - 1 - jr + 1)).drop i)
    else none
  | _, _ => none

/-! ## Response normalization (`agent_controller.py`, `controller_turn`) -/

/-- The generic fallback sentence for structured, non-conversational
answers. -/
def FALLBACK_SENTENCE : String :=
  "I have that information, but I need to format it better. Let me get back to you with a clearer answer."

/-- First field of `fields` bound to a string in `kvs`. -/
def firstTextField (kvs : Dict) : List String → Option String
  | [] => none
  | f :: fs =>
    match dGet kvs f with
    | some (.str t) => some t
    | _ => firstTextField kvs fs

/-- Chat-path handling of a parsed mapping (`agent_controller.py`
lines 409-424 and 432-448): structured values trigger the fallback
sentence, otherwise the priority text fields, otherwise the single string
value of a one-entry mapping, otherwise the answer is left as it was. -/
def chatExtract (answer0 : String) (kvs : Dict) : String :=
  if kvs.any (fun kv =>
      match kv.2 with
      | .arr _ => true
      | .obj _ => true
      | _ => false) then
    FALLBACK_SENTENCE
  else
    match firstTextField kvs ["response", "message", "text", "answer"] with
    | some t => t
    | none =>
      if kvs.length = 1 then
        match kvs with
        | [(_, .str v)] => v
        | _ => answer0
      else answer0

/-- The chat-action normalizer (`controller_turn`, plan action `chat`):
strip, then either unescape a quote-wrapped JSON string and inspect its
content, or parse directly; parse failures leave the text as is. -/
def chatNormalize (answer : String) : String :=
  let a := pyStrip answer
  if startsWithL ['"'] a.data ∧ a.data.getLast? = some '"' then
    match json_loads a with
    | none => a
    | some u =>
      match u with
      | .str us =>
        (match json_loads us with
         | some (.obj kvs) => chatExtract a kvs
         | some _ => a
         | none => us)
      | _ => a
  else
    match json_loads a with
    | none => a
    | some (.obj kvs) => chatExtract a kvs
    | some _ => a

/-- Model of the two leading-fence substitutions: first the pattern of three backticks plus json plus whitespace anchored at the start, then three backticks plus whitespace at the start, each replaced by the empty string. -/
def stripLeadingFence (cs : List Char) : List Char :=
  let cs1 :=
    if startsWithL "```json".data cs then (cs.drop 7).dropWhile isPyWs else cs
  if startsWithL ['`', '`', '`'] cs1 then (cs1.drop 3).dropWhile isPyWs else cs1

/-- Tail matching the pattern of three backticks followed only by
whitespace up to the end. -/
def isFenceTail (cs : List Char) : Bool :=
  match cs with
  | '`' :: '`' :: '`' :: rest => rest.all isPyWs
  | _ => false

/-- Model of the substitution of that pattern with the empty string: the leftmost matching
tail is cut off. -/
def stripTrailingFence : List Char → List Char
  | [] => []
  | c :: rest =>
    if isFenceTail (c :: rest) then [] else c :: stripTrailingFence rest

/-- The tool-result-path normalizer (`controller_turn` after a successful
tool call): strip, remove code-fence markers, strip, parse; on a mapping
take the first priority text field.  The one-entry fallback of this path
compares a string with a dict and can never fire, so a mapping without a
text field is returned as raw text.  The result is stripped once more. -/
def toolNormalize (resp : String) : String :=
  let a0 := pyStrip resp
  let a1 := String.mk (stripLeadingFence a0.data)
  let a2 := String.mk (stripTrailingFence a1.data)
  let a3 := pyStrip a2
  let a4 :=
    match json_loads a3 with
    | some (.obj kvs) =>
      (match firstTextField kvs ["response", "message", "text", "answer", "content"] with
       | some t => t
       | none => a3)
    | _ => a3
  pyStrip a4

/-! ## Storage model (`all_tools.py`)

Rows keep the SQLite dynamic typing: every non-key column holds a `Json`
value, `Json.null` standing for SQL NULL. -/

structure CarRow where
  id : Int
  vin : Json := .null
  year : Json := .null
  make : Json := .null
  model : Json := .null
  trim : Json := .null
  mileage : Json := .null
  interior_condition : Json := .null
  exterior_condition : Json := .null
  seller_ask_cents : Json := .null
  buyer_offer_cents : Json := .null
  created_at : Json := .null
  lead_id : Json := .null

structure PickupRow where
  pick_up_id : Int
  car_id : Json := .null
  address : Json := .null
  contact_phone : Json := .null
  pick_up_info : Json := .null
  created_at : Json := .null
  dropoff_time : Json := .null

def isNull : Json → Bool
  | .null => true
  | _ => false

/-- SQL `=` between a stored value and a bound parameter: NULL never
matches, values of the same primitive shape compare by value (cross-type
affinity coercions are out of model). -/
def sqlEq : Json → Json → Bool
  | .str a, .str b => a = b
  | .int a, .int b => a = b
  | .bool a, .bool b => a = b
  | _, _ => false

/-- SQL lowered LIKE against a stripped, lowered parameter:
substring match on a string column, never matching NULL (non-string
stored values are out of model). -/
def likeMatch (col : Option Json) : Json → Bool := fun value =>
  match col with
  | some (.str m) => containsSub (pyLower m) (pyLower (pyStrip (pyStr value)))
  | _ => false

def optJson : Option Json → Json
  | none => .null
  | some v => v

/-- Python `dict(row)` for a car (`SELECT *` column order). -/
def carToJson (r : CarRow) : Json :=
  .obj [("id", .int r.id), ("vin", r.vin), ("year", r.year),
        ("make", r.make), ("model", r.model), ("trim", r.trim),
        ("mileage", r.mileage),
        ("interior_condition", r.interior_condition),
        ("exterior_condition", r.exterior_condition),
        ("seller_ask_cents", r.seller_ask_cents),
        ("buyer_offer_cents", r.buyer_offer_cents),
        ("created_at", r.created_at), ("lead_id", r.lead_id)]

/-- Python `dict(row)` for a pickup. -/
def pickupToJson (p : PickupRow) : Json :=
  .obj [("pick_up_id", .int p.pick_up_id), ("car_id", p.car_id),
        ("address", p.address), ("contact_phone", p.contact_phone),
        ("pick_up_info", p.pick_up_info), ("created_at", p.created_at),
        ("dropoff_time", p.dropoff_time)]

/-- Value of key `k` inside a `Json` object. -/
def jObjGet (j : Json) (k : String) : Option Json :=
  match j with
  | .obj kvs => dGet kvs k
  | _ => none

/-! ### `car_retrieve` -/

def PRIORITY : List String := ["car_id", "vin", "model", "make", "year"]

/-- Presence test: the key is in the query and its value, as a stripped string, is non-empty. -/
def presentNonEmpty (query : Dict) (k : String) : Bool :=
  dHas query k && decide (pyStrip (pyStr ((dGet query k).getD .null)) ≠ "")

def providedKeys (query : Dict) : List String :=
  PRIORITY.filter (presentNonEmpty query)

def retrieveMeta (key : String) (value : Json) (ignored : List String) : Dict :=
  [("selected_key", .str key), ("selected_value", value),
   ("ignored_keys", .arr (ignored.map Json.str))]

/-- The one-key row filter `car_retrieve` runs (for the keys that use
`fetchall`; the `year` value arrives already converted to an int). -/
def carFilter (cars : List CarRow) (key : String) (value : Json) : List CarRow :=
  if key = "vin" then
    cars.filter (fun r => sqlEq r.vin (.str (pyStrip (pyStr value))))
  else if key = "model" then cars.filter (fun r => likeMatch (some r.model) value)
  else if key = "make" then cars.filter (fun r => likeMatch (some r.make) value)
  else cars.filter (fun r => sqlEq r.year value)

/-- The value actually bound into the single-key lookup: the raw query
value for the text keys, the int conversion for the numeric keys
(`none` when the conversion raises, in which case no lookup runs). -/
def carLookupValue (query : Dict) (key : String) : Option Json :=
  if key = "car_id" ∨ key = "year" then
    (pyToInt ((dGet query key).getD .null)).map Json.int
  else some ((dGet query key).getD .null)

def candJson (r : CarRow) : Json :=
  .obj [("id", .int r.id), ("year", r.year), ("make", r.make),
        ("model", r.model), ("vin", r.vin)]

/-- Zero/one/many handling of the fetched rows (`car_retrieve` lines
257-273): candidates are previewed with `rows[:5]`. -/
def carMany (rows : List CarRow) (meta : Dict) : ToolResult :=
  match rows with
  | [] =>
    {status := "error", code := some "NOT_FOUND",
     message := "No matching car found.", data := some (.obj meta)}
  | [r] =>
    {status := "success", message := "Car retrieved.",
     data := some (.obj (meta ++ [("car", carToJson r)]))}
  | rows =>
    {status := "unsure", code := some "AMBIGUOUS",
     message := "Multiple cars match—refine with VIN or car_id.",
     data := some (.obj (meta ++ [("candidates", .arr ((rows.take 5).map candJson))]))}

/-- Function `car_retrieve` of `all_tools.py`: pick the single highest-priority
present key, normalize numeric keys, query with only that key.  (The
`query must be an object` check is carried by the `Dict` type, and the
storage open/failure branches are out of model.) -/
def car_retrieve (cars : List CarRow) (query : Dict) : ToolResult :=
  match providedKeys query with
  | [] =>
    {status := "error", code := some "INVALID_INPUT",
     message := "Provide car_id, vin, model, make, or year.",
     data := some (.obj [])}
  | key :: ignored =>
    let value := (dGet query key).getD .null
    if key = "car_id" ∨ key = "year" then
      match pyToInt value with
      | none =>
        {status := "error", code := some "INVALID_INPUT",
         message := key ++ " must be an integer.",
         data := some (.obj [("received", value)])}
      | some n =>
        if key = "car_id" then
          let meta := retrieveMeta key (.int n) ignored
          match cars.find? (fun r => r.id = n) with
          | none =>
            {status := "error", code := some "NOT_FOUND",
             message := "No matching car found.", data := some (.obj meta)}
          | some r =>
            {status := "success", message := "Car retrieved.",
             data := some (.obj (meta ++ [("car", carToJson r)]))}
        else carMany (carFilter cars "year" (.int n)) (retrieveMeta key (.int n) ignored)
    else carMany (carFilter cars key value) (retrieveMeta key value ignored)

/-- Number of SQL queries `car_retrieve` issues for a given query dict
(zero when validation fails before reaching storage, one otherwise). -/
def car_retrieve_queries (query : Dict) : Nat :=
  match providedKeys query with
  | [] => 0
  | key :: _ =>
    if key = "car_id" ∨ key = "year" then
      match pyToInt ((dGet query key).getD .null) with
      | none => 0
      | some _ => 1
    else 1

/-! ### `car_update` and `car_add` -/

def CAR_ALLOWED_FIELDS : List String :=
  ["vin", "year", "make", "model", "trim", "mileage", "interior_condition",
   "exterior_condition", "seller_ask_cents", "buyer_offer_cents",
   "created_at", "lead_id"]

/-- Python `sorted(ALLOWED_FIELDS)`. -/
def sortedCarAllowed : List String :=
  ["buyer_offer_cents", "created_at", "exterior_condition",
   "interior_condition", "lead_id", "make", "mileage", "model",
   "seller_ask_cents", "trim", "vin", "year"]

def setCarField (r : CarRow) (field : String) (v : Json) : CarRow :=
  if field = "vin" then { r with vin := v }
  else if field = "year" then { r with year := v }
  else if field = "make" then { r with make := v }
  else if field = "model" then { r with model := v }
  else if field = "trim" then { r with trim := v }
  else if field = "mileage" then { r with mileage := v }
  else if field = "interior_condition" then { r with interior_condition := v }
  else if field = "exterior_condition" then { r with exterior_condition := v }
  else if field = "seller_ask_cents" then { r with seller_ask_cents := v }
  else if field = "buyer_offer_cents" then { r with buyer_offer_cents := v }
  else if field = "created_at" then { r with created_at := v }
  else if field = "lead_id" then { r with lead_id := v }
  else r

/-- One `UPDATE cars SET field = ? WHERE id = ?` per sanitized field. -/
def applyCarPatch (r : CarRow) (patch : Dict) : CarRow :=
  patch.foldl (fun acc kv => setCarField acc kv.1 kv.2) r

/-- Function `car_update` of `all_tools.py`: returns the result, the table after,
and the (lookup, write) statement counts. -/
def car_update (cars : List CarRow) (car_id : Json) (patch : Dict) :
    ToolResult × List CarRow × Nat × Nat :=
  if patch.isEmpty then
    ({status := "error", code := some "INVALID_INPUT",
      message := "patch must be a non-empty object.", data := some (.obj [])},
     cars, 0, 0)
  else
    match pyToInt car_id with
    | none =>
      ({status := "error", code := some "INVALID_INPUT",
        message := "car_id must be an integer.",
        data := some (.obj [("received", car_id)])}, cars, 0, 0)
    | some cid =>
      let sanitized := patch.filter (fun kv => CAR_ALLOWED_FIELDS.contains kv.1)
      if sanitized.isEmpty then
        ({status := "error", code := some "INVALID_INPUT",
          message := "No allowed fields to update.",
          data := some (.obj [("allowed_fields", .arr (sortedCarAllowed.map Json.str))])},
         cars, 0, 0)
      else
        match cars.find? (fun r => r.id = cid) with
        | none =>
          ({status := "error", code := some "NOT_FOUND",
            message := "Car id " ++ toString cid ++ " not found.",
            data := some (.obj [])}, cars, 1, 0)
        | some _ =>
          let cnt := sanitized.length
          let newCars :=
            cars.map (fun r => if r.id = cid then applyCarPatch r sanitized else r)
          ({status := "success",
            message :=
              if cnt ≠ 0 then "Car updated (" ++ toString cnt ++ " fields)."
              else "No fields changed.",
            data := some (.obj [("car_id", .int cid), ("updated_fields", .int cnt)])},
           newCars, 1, cnt)

/-- Model of `SELECT MIN(id) FROM cars`, then: no row value or positive minimum
gives -1, anything else one less than the minimum. -/
def _next_temp_car_id (cars : List CarRow) : Int :=
  match (cars.map (fun r => r.id)).min? with
  | none => -1
  | some m => if m > 0 then -1 else m - 1

/-- Insert branch of `car_add`: fresh negative temp id, a full row from
the patch, then `SELECT *` of the row just written. -/
def car_add_insert (cars : List CarRow) (patch : Dict) (vin_norm : Json) :
    ToolResult × List CarRow × Nat × Nat :=
  let temp_id := _next_temp_car_id cars
  let newRow : CarRow :=
    { id := temp_id, vin := vin_norm,
      year := (dGet patch "year").getD .null,
      make := (dGet patch "make").getD .null,
      model := (dGet patch "model").getD .null,
      trim := (dGet patch "trim").getD .null,
      mileage := (dGet patch "mileage").getD .null,
      interior_condition := (dGet patch "interior_condition").getD .null,
      exterior_condition := (dGet patch "exterior_condition").getD .null,
      seller_ask_cents := (dGet patch "seller_ask_cents").getD .null,
      buyer_offer_cents := (dGet patch "buyer_offer_cents").getD .null,
      created_at := (dGet patch "created_at").getD .null,
      lead_id := (dGet patch "lead_id").getD .null }
  let cars2 := cars ++ [newRow]
  let rowBack := (cars2.find? (fun r => r.id = temp_id)).getD newRow
  ({status := "success", message := "Car added.",
    data := some (.obj [("car", carToJson rowBack)])}, cars2, 2, 1)

/-- Normalization `vin.strip() or None` on the patch value (non-strings pass through,
as in the source). -/
def vinNormOf (patch : Dict) : Json :=
  match (dGet patch "vin").getD .null with
  | .str s => if pyStrip s = "" then .null else .str (pyStrip s)
  | v => v

/-- Whitelisted patch for the upsert branch, with the vin kept
normalized. -/
def upsertSanitized (patch : Dict) (vin_norm : Json) : Dict :=
  let sanitized0 := patch.filter (fun kv => CAR_ALLOWED_FIELDS.contains kv.1)
  if dHas sanitized0 "vin" then
    sanitized0.map (fun kv => if kv.1 = "vin" then ("vin", vin_norm) else kv)
  else sanitized0

/-- Function `car_add` of `all_tools.py`: upsert by VIN, else insert with a negative
temp id. -/
def car_add (cars : List CarRow) (patch : Dict) :
    ToolResult × List CarRow × Nat × Nat :=
  let vin_norm := vinNormOf patch
  if isNull vin_norm then car_add_insert cars patch vin_norm
  else
    match cars.find? (fun r => sqlEq r.vin vin_norm) with
    | none =>
      let (res, cars2, lk, wr) := car_add_insert cars patch vin_norm
      (res, cars2, lk + 1, wr)
    | some existing =>
      let car_id := existing.id
      let sanitized := upsertSanitized patch vin_norm
      if sanitized.isEmpty then
        ({status := "success", message := "Car upserted (existing VIN, no changes).",
          data := some (.obj [("car", carToJson existing)])}, cars, 2, 0)
      else
        let updated := sanitized.length
        let newCars :=
          cars.map (fun r => if r.id = car_id then applyCarPatch r sanitized else r)
        let rowAfter := (newCars.find? (fun r => r.id = car_id)).getD existing
        ({status := "success",
          message :=
            if updated ≠ 0 then "Car upserted (existing VIN updated)."
            else "No fields changed.",
          data := some (.obj [("car", carToJson rowAfter), ("updated_fields", .int updated)])},
         newCars, 3, updated)

/-! ### Tool dispatch (`agent_controller.py`, `_dispatch_tool`) -/

def FORBID_MSG : String :=
  "Ava cannot set buyer_offer_cents. Only GMTV employees can set the company\x27s offer."

/-- The car_add branch of the dispatcher: default the session lead_id into
the patch, then short-circuit on the business-restricted field. -/
def dispatch_car_add (cars : List CarRow) (args : Dict) (lead : Json) :
    ToolResult × List CarRow × Nat × Nat :=
  let patch := if dHas args "lead_id" then args else args ++ [("lead_id", lead)]
  if dHas patch "buyer_offer_cents" then
    ({status := "error", code := some "FORBIDDEN", message := FORBID_MSG},
     cars, 0, 0)
  else car_add cars patch

/-- Dict comprehension `\x7bfield: args[field] for field in [...] if field in args and
args[field]\x7d` (dispatcher resolution query). -/
def carIdentFields (args : Dict) (fields : List String) : Dict :=
  fields.filterMap (fun f =>
    match dGet args f with
    | some v => if pyTruthy v then some (f, v) else none
    | none => none)

/-- Common tail of the `car_update` dispatch branch once a car id is in
hand: strip identifier fields and nulls from the patch, short-circuit on
the restricted field, else run the update.  `lk` counts lookups already
spent on resolution. -/
def keepPatchField (kv : String × Json) : Bool :=
  !(["car_id", "vin", "make", "model", "year"].contains kv.1) && !(isNull kv.2)

def carUpdateWithId (cars : List CarRow) (args : Dict) (cid : Json) (lk : Nat) :
    ToolResult × List CarRow × Nat × Nat :=
  let patch := args.filter keepPatchField
  if dHas patch "buyer_offer_cents" then
    ({status := "error", code := some "FORBIDDEN", message := FORBID_MSG},
     cars, lk, 0)
  else
    let out := car_update cars cid patch
    (out.1, out.2.1, lk + out.2.2.1, out.2.2.2)

/-- The car_update branch of the dispatcher: resolve a missing car id
through `car_retrieve` first. -/
def dispatch_car_update (cars : List CarRow) (args : Dict) :
    ToolResult × List CarRow × Nat × Nat :=
  let car_id0 := (dGet args "car_id").getD .null
  if pyTruthy car_id0 then carUpdateWithId cars args car_id0 0
  else
    let query_fields := carIdentFields args ["vin", "make", "model", "year"]
    if query_fields.isEmpty then
      ({status := "error", code := some "INVALID_INPUT",
        message := "Provide car_id, vin, make, model, or year to identify the car to update."},
       cars, 0, 0)
    else
      let rr := car_retrieve cars query_fields
      let lk := car_retrieve_queries query_fields
      if rr.status = "error" then (rr, cars, lk, 0)
      else if rr.status = "unsure" then
        ({status := "error", code := some "AMBIGUOUS", message := rr.message,
          data := some ((rr.data).getD (.obj []))}, cars, lk, 0)
      else
        let car := (jObjGet ((rr.data).getD (.obj [])) "car").getD (.obj [])
        let cid := (jObjGet car "id").getD .null
        if ¬ pyTruthy cid then
          ({status := "error", code := some "TXN_FAILED",
            message := "Could not extract car_id from retrieved car."}, cars, lk, 0)
        else carUpdateWithId cars args cid lk

/-! ### `pickup_retrieve` and its dispatcher branch -/

/-- Function `pickup_retrieve` of `all_tools.py`. -/
def pickup_retrieve (pickups : List PickupRow) (pid : Json) : ToolResult :=
  match pyToInt pid with
  | none =>
    {status := "error", code := some "INVALID_INPUT",
     message := "pick_up_id must be an integer.",
     data := some (.obj [("received", pid)])}
  | some n =>
    match pickups.find? (fun p => p.pick_up_id = n) with
    | none =>
      {status := "error", code := some "NOT_FOUND", message := "Pickup not found.",
       data := some (.obj [("pick_up_id", .int n)])}
    | some p =>
      {status := "success", message := "Pickup retrieved.",
       data := some (.obj [("pickup", pickupToJson p)])}

/-- The `pickup_retrieve` branch of `_dispatch_tool`
(`agent_controller.py` lines 128-215): resolve the car first, then find
the pickups keyed by the resolved car id; zero is NOT_FOUND, several is
AMBIGUOUS with the full (uncapped) id list, exactly one proceeds. -/
def dispatch_pickup_retrieve (cars : List CarRow) (pickups : List PickupRow)
    (args : Dict) : ToolResult :=
  let pid0 := (dGet args "pick_up_id").getD .null
  if pyTruthy pid0 then pickup_retrieve pickups pid0
  else
    let car_query := carIdentFields args ["car_id", "vin", "make", "model", "year"]
    if car_query.isEmpty then
      {status := "error", code := some "INVALID_INPUT",
       message := "I need to know which car you\x27re referring to. Please provide the VIN, or tell me the make, model, and year of the car."}
    else
      let rr := car_retrieve cars car_query
      if rr.status = "error" then rr
      else if rr.status = "unsure" then
        {status := "error", code := some "AMBIGUOUS",
         message := "I found multiple cars matching that description. Could you provide the VIN to help me identify the exact car?",
         data := some ((rr.data).getD (.obj []))}
      else
        let car := (jObjGet ((rr.data).getD (.obj [])) "car").getD (.obj [])
        let cid := (jObjGet car "id").getD .null
        if ¬ pyTruthy cid then
          {status := "error", code := some "TXN_FAILED",
           message := "I had trouble finding that car. Please try again with more details."}
        else
          let matching := pickups.filter (fun p => sqlEq p.car_id cid)
          match matching with
          | [] =>
            {status := "error", code := some "NOT_FOUND",
             message := "I couldn\x27t find a pickup scheduled for that car.",
             data := some (.obj [("car_id", cid)])}
          | [p] => pickup_retrieve pickups (.int p.pick_up_id)
          | ps =>
            {status := "error", code := some "AMBIGUOUS",
             message := "I found multiple pickups for this car. Could you provide more details (like the address or pickup date) to help me identify which one you mean?",
             data := some (.obj [("car_id", cid),
               ("pickup_ids", .arr (ps.map (fun p => Json.int p.pick_up_id)))])}

/-! ### `add_buyer_schedule` and the controller message for its error -/

structure SchedRow where
  id : Int
  buyer_id : Int
  description : Json := .null
  schedule_time : Json := .null
  priority : Json := .null

def PRIORITIES : List String := ["Low", "Medium", "High"]

/-- Python `str.title()` (ASCII): a letter is uppercased when the previous
character is not a letter, lowercased otherwise. -/
def pyTitleGo : Bool → List Char → List Char
  | _, [] => []
  | prevAlpha, c :: rest =>
    (if c.isAlpha then (if prevAlpha then c.toLower else c.toUpper) else c)
      :: pyTitleGo c.isAlpha rest

def pyTitle (s : String) : String := String.mk (pyTitleGo false s.data)

/-- Function `_dt_str` of `all_tools.py` on a JSON value: cheap text normalization,
then the `datetime.fromisoformat(...).strftime(...)` round-trip, which is
abstracted as `isoNorm` (`none` models a raised parse error, falling back
to the cheap text).  The `datetime`-object branch does not arise for
JSON-decoded input. -/
def _dt_str (isoNorm : String → Option String) (v : Json) : String :=
  let s0 := pyStrip (pyStr (if pyTruthy v then v else .str ""))
  let s1 := String.mk (s0.data.map (fun c => if c = 'T' then ' ' else c))
  let s2 := String.mk ((s1.data.reverse.dropWhile (fun c => c = 'Z')).reverse)
  match isoNorm (String.mk (s2.data.takeWhile (fun c => c ≠ '.'))) with
  | some t => t
  | none => s2

def schedDesc (patch : Dict) : String :=
  let raw := (dGet patch "description").getD .null
  pyStrip (pyStr (if pyTruthy raw then raw else .str ""))

def schedPr (patch : Dict) : String :=
  let raw := (dGet patch "priority").getD .null
  pyTitle (pyStrip (pyStr (if pyTruthy raw then raw else .str "Medium")))

def schedSt (isoNorm : String → Option String) (patch : Dict) : String :=
  _dt_str isoNorm ((dGet patch "schedule_time").getD .null)

/-- The columns of the booked-check `SELECT` (no `buyer_id`). -/
def existingSchedJson (p : SchedRow) : Json :=
  .obj [("id", .int p.id), ("description", p.description),
        ("schedule_time", p.schedule_time), ("priority", p.priority)]

/-- The full row as returned after an insert. -/
def schedFullJson (p : SchedRow) : Json :=
  .obj [("id", .int p.id), ("buyer_id", .int p.buyer_id),
        ("description", p.description), ("schedule_time", p.schedule_time),
        ("priority", p.priority)]

/-- SQLite `lastrowid` for an integer primary key, modelled as one more
than the largest existing id (0 when the table is empty). -/
def nextSchedId (rows : List SchedRow) : Int :=
  ((rows.map (fun r => r.id)).max?).getD 0 + 1

/-- Function `add_buyer_schedule` of `all_tools.py`: validation, the
already-booked check (which returns `TIME_ALREADY_BOOKED` and leaves the
table unchanged), then the insert. -/
def add_buyer_schedule (isoNorm : String → Option String) (buyers : List Int)
    (schedules : List SchedRow) (buyer_id : Json) (patch : Dict) :
    ToolResult × List SchedRow :=
  match pyToInt buyer_id with
  | none =>
    ({status := "error", code := some "INVALID_INPUT",
      message := "buyer_id must be an integer.",
      data := some (.obj [("received", buyer_id)])}, schedules)
  | some bid =>
    if patch.isEmpty then
      ({status := "error", code := some "INVALID_INPUT",
        message := "patch must be a non-empty object.", data := some (.obj [])},
       schedules)
    else
      let desc := schedDesc patch
      if desc = "" then
        ({status := "error", code := some "INVALID_INPUT",
          message := "description is required.", data := some (.obj [])}, schedules)
      else
        let pr := schedPr patch
        if ¬ (pr ∈ PRIORITIES) then
          ({status := "error", code := some "INVALID_INPUT",
            message := "priority must be one of [\x27High\x27, \x27Low\x27, \x27Medium\x27]",
            data := some (.obj [("received", (dGet patch "priority").getD .null)])},
           schedules)
        else
          let st := schedSt isoNorm patch
          if st = "" then
            ({status := "error", code := some "INVALID_INPUT",
              message := "schedule_time is invalid.",
              data := some (.obj [("received",
                .str (pyStr ((dGet patch "schedule_time").getD .null)))])},
             schedules)
          else if ¬ (bid ∈ buyers) then
            ({status := "error", code := some "NOT_FOUND",
              message := "Buyer id " ++ toString bid ++ " not found.",
              data := some (.obj [])}, schedules)
          else
            match schedules.find? (fun p =>
                p.buyer_id = bid ∧ sqlEq p.schedule_time (.str st)) with
            | some existing =>
              ({status := "error", code := some "TIME_ALREADY_BOOKED",
                message := "The buyer is already booked at " ++ st ++
                  ". Please choose another time.",
                data := some (.obj [("existing_schedule", existingSchedJson existing),
                  ("requested_time", .str st)])}, schedules)
            | none =>
              let row : SchedRow :=
                { id := nextSchedId schedules, buyer_id := bid,
                  description := .str desc, schedule_time := .str st,
                  priority := .str pr }
              ({status := "success", message := "Schedule added.",
                data := some (.obj [("schedule", schedFullJson row)])},
               schedules ++ [row])

/-- The controller\x27s error formatting after a tool call
(`controller_turn` lines 466-475): `TIME_ALREADY_BOOKED` gets the
dedicated sentence built from the existing entry, other errors echo the
tool message or a generic fallback.  `none` means the status was success
and the controller continues to the phrasing call. -/
def controller_tool_reply (result : ToolResult) : Option String :=
  if result.status = "success" then none
  else if result.code.getD "" = "TIME_ALREADY_BOOKED" then
    let data := result.data.getD (.obj [])
    let existing := (jObjGet data "existing_schedule").getD (.obj [])
    let tJ := (jObjGet existing "schedule_time").getD (.str "")
    some ("The buyer is already booked at " ++ pyStr tJ ++
      ". Please choose another time.")
  else
    let msg := result.message
    some (if msg ≠ "" then msg else "That did not work.")

/-! ## Chat backend client (`ava_client.py`)

The external service is an oracle: per-call outcomes are indexed by the
client\x27s own call counters.  `none` from `login`/`getSession` models a
raised HTTP error; `none` from a wire-shape send models a caught
connection error. -/

structure Backend where
  login : Option String
  getSession : Nat → Option String
  sendMinimal : Nat → Option (String × Bool)
  sendLegacy : Nat → Option String

structure ClientState where
  token : Option String := none
  session_id : Option String := none
  sendCount : Nat := 0
  getCount : Nat := 0
  closeCount : Nat := 0

/-- The fixed apology string returned after the whole escalation fails
(byte-exact to the source, including its mojibake dash). -/
def APOLOGY : String :=
  "Sorryâ€”no response from Ava after multiple attempts. Please try again."

/-- One `_send_message` body after token/session are ensured: the minimal
wire shape wins if it returned non-empty text without a bad-request
signal, else the legacy shape\x27s non-empty text, else no text.  Wire
exceptions are caught and collapse to no text. -/
def sendOutcome (b : Backend) (n : Nat) : Option String :=
  let viaLegacy : Option String :=
    match b.sendLegacy n with
    | some t2 => if t2 ≠ "" then some t2 else none
    | none => none
  match b.sendMinimal n with
  | some (t, bad) => if ¬ bad ∧ t ≠ "" then some t else viaLegacy
  | none => viaLegacy

/-- Lazy login: if no token is cached, log in; the login POST may raise. -/
def ensureToken (b : Backend) (st : ClientState) : Option ClientState :=
  match st.token with
  | some _ => some st
  | none =>
    match b.login with
    | some tok => some { st with token := some tok }
    | none => none

/-- Method close_session: needs a token (lazily logging in, which may raise);
the HTTP call itself is try/except-wrapped and never raises. -/
def close_session (b : Backend) (st : ClientState) : Option ClientState :=
  (ensureToken b st).map (fun st1 => { st1 with closeCount := st1.closeCount + 1 })

/-- Method get_session: ensure a token, tear down the bound session when
forcing a new one, then request an id (the GET may raise). -/
def get_session (b : Backend) (st : ClientState) (forceNew : Bool) :
    Option (String × ClientState) :=
  match ensureToken b st with
  | none => none
  | some st1 =>
    let pre : Option ClientState :=
      if forceNew ∧ st1.session_id.isSome then
        (close_session b st1).map (fun s => { s with session_id := none })
      else some st1
    match pre with
    | none => none
    | some st2 =>
      match b.getSession st2.getCount with
      | none => none
      | some sid =>
        some (sid, { st2 with session_id := some sid, getCount := st2.getCount + 1 })

/-- Method _send_message: ensure token and session (either may raise — the
outer `none`), then run the two wire shapes, which never raise. -/
def _send_message (b : Backend) (st : ClientState) :
    Option (Option String × ClientState) :=
  match ensureToken b st with
  | none => none
  | some st1 =>
    match (if st1.session_id.isSome then some st1
           else (get_session b st1 false).map (fun pr => pr.2)) with
    | none => none
    | some st2 =>
      some (sendOutcome b st2.sendCount, { st2 with sendCount := st2.sendCount + 1 })

/-- The close-then-recreate unit: close any bound session, clear it,
`self.get_session(force_new=True)` — the session-recreation unit run
before attempts 3 and 4.  The `none` models `get_session` (or the lazy
login inside `close_session`) raising. -/
def recreateSession (b : Backend) (st : ClientState) : Option ClientState :=
  match (if st.session_id.isSome then close_session b st else some st) with
  | none => none
  | some st3 =>
    match get_session b { st3 with session_id := none } true with
    | none => none
    | some (_, st4) => some st4

/-- Method ask_once of `ava_client.py`: attempt, plain retry, then two rounds of
close-session / new-session / retry, and finally the fixed apology.  The
outer `none` models an exception escaping `ask_once`. -/
def ask_once (b : Backend) (st : ClientState) : Option (String × ClientState) :=
  match _send_message b st with
  | none => none
  | some (some t, st1) => some (t, st1)
  | some (none, st1) =>
    match _send_message b st1 with
    | none => none
    | some (some t, st2) => some (t, st2)
    | some (none, st2) =>
      match recreateSession b st2 with
      | none => none
      | some st4 =>
        match _send_message b st4 with
        | none => none
        | some (some t, st5) => some (t, st5)
        | some (none, st5) =>
          match recreateSession b st5 with
          | none => none
          | some st7 =>
            match _send_message b st7 with
            | none => none
            | some (some t, st8) => some (t, st8)
            | some (none, st8) => some (APOLOGY, st8)

/-- The escalation as the claim words it: the first non-empty text among
four consecutive logical send attempts, else the apology, together with
the number of attempts spent. -/
def specAskOnce (b : Backend) (k : Nat) : String × Nat :=
  match sendOutcome b k with
  | some t => (t, 1)
  | none =>
    match sendOutcome b (k + 1) with
    | some t => (t, 2)
    | none =>
      match sendOutcome b (k + 2) with
      | some t => (t, 3)
      | none =>
        match sendOutcome b (k + 3) with
        | some t => (t, 4)
        | none => (APOLOGY, 4)

/-- A backend whose session-creation GET fails: used to show `ask_once`
can propagate an exception. -/
def failingSessionBackend : Backend :=
  { login := some "tok", getSession := fun _ => none,
    sendMinimal := fun _ => some ("", false), sendLegacy := fun _ => some "" }

/-- A backend that authenticates and binds sessions but never produces
text on any wire shape. -/
def silentBackend : Backend :=
  { login := some "tok", getSession := fun _ => some "sess",
    sendMinimal := fun _ => some ("", false), sendLegacy := fun _ => some "" }

/-- A fresh client that already holds a token but no session. -/
def freshClient : ClientState := { token := some "tok" }

/-- A mid-conversation client: token and session bound. -/
def boundClient : ClientState := { token := some "tok", session_id := some "sess" }

/-! ## Helpers for theorem statements and concrete fixtures -/

/-- Replace the `ignored_keys` entry (when present) of the result\x27s data
object. -/
def setIgnoredKeys (ignored : List String) (r : ToolResult) : ToolResult :=
  { r with
    data := r.data.map (fun d =>
      match d with
      | .obj kvs =>
        .obj (kvs.map (fun kv =>
          if kv.1 = "ignored_keys" then (kv.1, Json.arr (ignored.map Json.str))
          else kv))
      | other => other) }

/-- Field of a result\x27s data object. -/
def resField (r : ToolResult) (k : String) : Option Json :=
  jObjGet (r.data.getD (.obj [])) k

/-- One car with id 1 and six pickups keyed to it. -/
def carsSix : List CarRow := [{ id := 1, vin := .str "V1" }]

def pickupsSix : List PickupRow :=
  [{ pick_up_id := 1, car_id := .int 1 }, { pick_up_id := 2, car_id := .int 1 },
   { pick_up_id := 3, car_id := .int 1 }, { pick_up_id := 4, car_id := .int 1 },
   { pick_up_id := 5, car_id := .int 1 }, { pick_up_id := 6, car_id := .int 1 }]

def pickupArgsSix : Dict := [("car_id", Json.int 1)]

/-- One car matching VIN "VX", and update args that carry the restricted
field. -/
def carsRestricted : List CarRow := [{ id := 7, vin := .str "VX" }]

def argsRestricted : Dict :=
  [("vin", Json.str "VX"), ("buyer_offer_cents", Json.int 100)]


theorem string_mk_data (s : String) : String.mk s.data = s := by
  cases s
  rfl

theorem firstIdxOf_isSome (p : Char → Bool) (cs : List Char) :
    (firstIdxOf p cs).isSome = cs.any p := by
  induction cs with
  | nil => rfl
  | cons c rest ih =>
    by_cases h : p c = true
    · simp [firstIdxOf, h]
    · simp [firstIdxOf, h, ← ih]

theorem firstIdxOf_lt_length (p : Char → Bool) (cs : List Char) (k : Nat)
    (h : firstIdxOf p cs = some k) : k < cs.length := by
  induction cs generalizing k with
  | nil => simp [firstIdxOf] at h
  | cons c rest ih =>
    by_cases hp : p c = true
    · simp only [firstIdxOf, hp, if_true, ite_true, Option.some.injEq] at h
      simp only [List.length_cons]
      omega
    · simp [firstIdxOf, hp] at h
      obtain ⟨k2, hk2, rfl⟩ := h
      have := ih k2 hk2
      simp only [List.length_cons]
      omega

theorem firstIdxOf_append_singleton (p : Char → Bool) (xs : List Char) (c : Char) :
    firstIdxOf p (xs ++ [c]) =
      match firstIdxOf p xs with
      | some n => some n
      | none => if p c then some xs.length else none := by
  induction xs with
  | nil =>
    by_cases h : p c = true <;> simp [firstIdxOf, h]
  | cons x rest ih =>
    by_cases h : p x = true
    · simp [firstIdxOf, h]
    · have hstep : firstIdxOf p ((x :: rest) ++ [c]) =
          (firstIdxOf p (rest ++ [c])).map (fun n => n + 1) := by
        simp [firstIdxOf, h]
      rw [hstep, ih]
      cases hf : firstIdxOf p rest with
      | some n => simp [firstIdxOf, h, hf]
      | none =>
        by_cases hc : p c = true
        · simp [firstIdxOf, h, hf, hc]
        · simp [firstIdxOf, h, hf, hc]

theorem dropWhile_not_eq_drop_firstIdx (p : Char → Bool) (ys : List Char) (k : Nat)
    (h : firstIdxOf p ys = some k) :
    ys.dropWhile (fun d => !(p d)) = ys.drop k := by
  induction ys generalizing k with
  | nil => simp [firstIdxOf] at h
  | cons y rest ih =>
    by_cases hp : p y = true
    · simp [firstIdxOf, hp] at h
      subst h
      simp [List.dropWhile_cons, hp]
    · simp [firstIdxOf, hp] at h
      obtain ⟨k2, hk2, rfl⟩ := h
      simp [List.dropWhile_cons, hp, ih k2 hk2]

theorem takeToLastClose_eq_take (cs : List Char) (jr : Nat)
    (h : firstIdxOf isCloseBrace cs.reverse = some jr) :
    takeToLastClose cs = cs.take (cs.length - jr) := by
  unfold takeToLastClose
  rw [dropWhile_not_eq_drop_firstIdx isCloseBrace cs.reverse jr h]
  rw [← List.rdrop_eq_reverse_drop_reverse]
  rw [List.rdrop]

/-- The translated greedy regex search coincides with the claim-level
index phrasing: span from the first opening brace (when a closing brace
follows it) to the last closing brace of the text. -/
theorem braceCandidate_eq_specGreedySpan (cs : List Char) :
    braceCandidate cs = specGreedySpan cs := by
  induction cs with
  | nil => rfl
  | cons c rest ih =>
    by_cases hc : isOpenBrace c = true
    · have hco : c = '\x7b' := by simpa [isOpenBrace] using hc
      by_cases hr : rest.any isCloseBrace = true
      · -- a closing brace follows: both take the span to the last close
        have hrs : (firstIdxOf isCloseBrace rest.reverse).isSome = true := by
          rw [firstIdxOf_isSome]
          simpa using hr
        obtain ⟨jr, hjr⟩ := Option.isSome_iff_exists.mp hrs
        have hjlt : jr < rest.length := by
          have := firstIdxOf_lt_length _ _ _ hjr
          simpa using this
        have hrev : firstIdxOf isCloseBrace (rest.reverse ++ [c]) = some jr := by
          rw [firstIdxOf_append_singleton, hjr]
        rw [show braceCandidate (c :: rest) = some ('\x7b' :: takeToLastClose rest) by
          simp [braceCandidate, hc, hr]]
        rw [takeToLastClose_eq_take rest jr hjr]
        simp only [specGreedySpan, firstIdxOf, hc, if_true, ite_true,
          List.reverse_cons, hrev, List.length_cons]
        have hj : rest.length + 1 - 1 - jr = rest.length - jr := by omega
        rw [hj]
        obtain ⟨m, hm⟩ : ∃ m, rest.length - jr = m + 1 :=
          ⟨rest.length - jr - 1, by omega⟩
        rw [hm]
        rw [if_pos (by omega : 0 < m + 1)]
        simp [hco, List.take_succ_cons]
      · -- no closing brace anywhere after the opening one: no match
        have hnone : firstIdxOf isCloseBrace rest.reverse = none := by
          have h2 : (firstIdxOf isCloseBrace rest.reverse).isSome = false := by
            rw [firstIdxOf_isSome]
            simpa using hr
          cases hopt : firstIdxOf isCloseBrace rest.reverse with
          | none => rfl
          | some k => rw [hopt] at h2 ; simp at h2
        have hnone2 : firstIdxOf isCloseBrace (rest.reverse ++ [c]) = none := by
          rw [firstIdxOf_append_singleton, hnone]
          simp [isCloseBrace, hco]
        have hbrace : braceCandidate (c :: rest) = braceCandidate rest := by
          simp [braceCandidate, hr]
        have hl : braceCandidate rest = none := by
          rw [ih]
          simp [specGreedySpan, hnone]
        rw [hbrace, hl]
        simp only [specGreedySpan, List.reverse_cons, hnone2]
        cases firstIdxOf isOpenBrace (c :: rest) <;> rfl
    · -- not an opening brace: skip this character on both sides
      have hbrace : braceCandidate (c :: rest) = braceCandidate rest := by
        simp [braceCandidate, hc]
      rw [hbrace, ih]
      cases hio : firstIdxOf isOpenBrace rest with
      | none =>
        simp [specGreedySpan, firstIdxOf, hc, hio]
      | some i =>
        cases hic : firstIdxOf isCloseBrace rest.reverse with
        | none =>
          have hrev : firstIdxOf isCloseBrace (rest.reverse ++ [c]) =
              if isCloseBrace c then some rest.reverse.length else none := by
            rw [firstIdxOf_append_singleton, hic]
          by_cases hcc : isCloseBrace c = true
          · simp only [specGreedySpan, firstIdxOf, hc, hio, hic,
              List.reverse_cons, hrev, hcc, if_true, ite_true,
              Option.map_some', List.length_cons, List.length_reverse,
              Bool.false_eq_true, if_false, ite_false]
            rw [if_neg (by omega)]
          · simp [specGreedySpan, firstIdxOf, hc, hio, hic, List.reverse_cons,
              hrev, hcc]
        | some jr =>
          have hjlt : jr < rest.length := by
            have := firstIdxOf_lt_length _ _ _ hic
            simpa using this
          have hrev : firstIdxOf isCloseBrace (rest.reverse ++ [c]) = some jr := by
            rw [firstIdxOf_append_singleton, hic]
          simp only [specGreedySpan, firstIdxOf, hc, hio, hic, hrev,
            List.reverse_cons, Bool.false_eq_true, if_false, ite_false,
            Option.map_some', List.length_cons]
          have h1 : rest.length + 1 - 1 - jr = (rest.length - 1 - jr) + 1 := by
            omega
          rw [h1]
          by_cases hij : i < rest.length - 1 - jr
          · rw [if_pos hij, if_pos (by omega)]
            rw [List.take_succ_cons, List.drop_succ_cons]
          · rw [if_neg hij, if_neg (by omega)]

theorem send_message_spec (b : Backend) (st : ClientState)
    (htok : st.token.isSome) (hget : ∀ n, (b.getSession n).isSome) :
    ∃ st1, _send_message b st = some (sendOutcome b st.sendCount, st1) ∧
      st1.sendCount = st.sendCount + 1 ∧ st1.token = st.token := by
  obtain ⟨tok, htk⟩ := Option.isSome_iff_exists.mp htok
  have hens : ensureToken b st = some st := by simp [ensureToken, htk]
  cases hs : st.session_id with
  | some sid =>
    exact ⟨{ st with sendCount := st.sendCount + 1 },
      by simp [_send_message, hens, hs], rfl, rfl⟩
  | none =>
    obtain ⟨sid, hsid⟩ := Option.isSome_iff_exists.mp (hget st.getCount)
    exact ⟨{ st with session_id := some sid, getCount := st.getCount + 1, sendCount := st.sendCount + 1 },
      by simp [_send_message, hens, hs, get_session, hsid], rfl, rfl⟩

theorem recreate_spec (b : Backend) (st : ClientState)
    (htok : st.token.isSome) (hget : ∀ n, (b.getSession n).isSome) :
    ∃ st4, recreateSession b st = some st4 ∧
      st4.sendCount = st.sendCount ∧ st4.token = st.token := by
  obtain ⟨tok, htk⟩ := Option.isSome_iff_exists.mp htok
  obtain ⟨sid2, hsid2⟩ := Option.isSome_iff_exists.mp (hget st.getCount)
  cases hs : st.session_id with
  | some sid =>
    exact ⟨{ st with closeCount := st.closeCount + 1, session_id := some sid2, getCount := st.getCount + 1 },
      by simp [recreateSession, hs, close_session, get_session, ensureToken,
        htk, hsid2], rfl, rfl⟩
  | none =>
    exact ⟨{ st with session_id := some sid2, getCount := st.getCount + 1 },
      by simp [recreateSession, hs, get_session, ensureToken, htk, hsid2],
      rfl, rfl⟩

/-- C4 counterexample: when the backend\x27s session-creation GET fails,
`ask_once` propagates the exception (the model\x27s `none`) instead of
collapsing every failure into "no text produced": the claim that
`ask_once` never raises past the client boundary is false. -/
theorem ask_once_can_raise :
    ask_once failingSessionBackend freshClient = none := rfl

/-- C4 (amended): provided authentication is cached and every
session-creation call succeeds, `ask_once` never raises, makes at most
four logical send attempts (attempt 2 a plain resend, attempts 3 and 4
each after closing and recreating the session), returns the first
non-empty text obtained, and returns the fixed apology string when all
four attempts yield no text; login or session-creation failures, however,
do propagate. -/
theorem ask_once_protocol (b : Backend) (st : ClientState)
    (htok : st.token.isSome) (hget : ∀ n, (b.getSession n).isSome) :
    ∃ st2, ask_once b st = some ((specAskOnce b st.sendCount).1, st2) ∧
      st2.sendCount = st.sendCount + (specAskOnce b st.sendCount).2 := by
  obtain ⟨s1, h1, h1c, h1t⟩ := send_message_spec b st htok hget
  cases ho1 : sendOutcome b st.sendCount with
  | some t =>
    refine ⟨s1, ?_, ?_⟩
    · simp [ask_once, specAskOnce, h1, ho1]
    · simp [specAskOnce, ho1, h1c]
  | none =>
    have htok1 : s1.token.isSome := by rw [h1t] ; exact htok
    obtain ⟨s2, h2, h2c, h2t⟩ := send_message_spec b s1 htok1 hget
    rw [h1c] at h2 h2c
    cases ho2 : sendOutcome b (st.sendCount + 1) with
    | some t =>
      refine ⟨s2, ?_, ?_⟩
      · simp [ask_once, specAskOnce, h1, ho1, h2, ho2]
      · simp [specAskOnce, ho1, ho2, h2c]
    | none =>
      have htok2 : s2.token.isSome := by rw [h2t, h1t] ; exact htok
      obtain ⟨s3, hr1, hr1c, hr1t⟩ := recreate_spec b s2 htok2 hget
      rw [h2c] at hr1c
      have htok3 : s3.token.isSome := by rw [hr1t, h2t, h1t] ; exact htok
      obtain ⟨s4, h3, h3c, h3t⟩ := send_message_spec b s3 htok3 hget
      rw [hr1c] at h3 h3c
      rw [show st.sendCount + 1 + 1 = st.sendCount + 2 from rfl] at h3 h3c
      cases ho3 : sendOutcome b (st.sendCount + 2) with
      | some t =>
        refine ⟨s4, ?_, ?_⟩
        · simp [ask_once, specAskOnce, h1, ho1, h2, ho2, hr1, h3, ho3]
        · simp [specAskOnce, ho1, ho2, ho3, h3c]
      | none =>
        have htok4 : s4.token.isSome := by rw [h3t, hr1t, h2t, h1t] ; exact htok
        obtain ⟨s5, hr2, hr2c, hr2t⟩ := recreate_spec b s4 htok4 hget
        rw [h3c] at hr2c
        have htok5 : s5.token.isSome := by
          rw [hr2t, h3t, hr1t, h2t, h1t] ; exact htok
        obtain ⟨s6, h4, h4c, h4t⟩ := send_message_spec b s5 htok5 hget
        rw [hr2c] at h4 h4c
        rw [show st.sendCount + 2 + 1 = st.sendCount + 3 from rfl] at h4 h4c
        cases ho4 : sendOutcome b (st.sendCount + 3) with
        | some t =>
          refine ⟨s6, ?_, ?_⟩
          · simp [ask_once, specAskOnce, h1, ho1, h2, ho2, hr1, h3, ho3, hr2, h4, ho4]
          · simp [specAskOnce, ho1, ho2, ho3, ho4, h4c]
        | none =>
          refine ⟨s6, ?_, ?_⟩
          · simp [ask_once, specAskOnce, h1, ho1, h2, ho2, hr1, h3, ho3, hr2, h4, ho4]
          · simp [specAskOnce, ho1, ho2, ho3, ho4, h4c]

/-- Witness for the amended C4 statement: a backend that authenticates
and binds sessions but never yields text makes exactly four attempts and
ends in the apology string. -/
theorem ask_once_protocol_witness :
    ∃ st2, ask_once silentBackend boundClient =
        some ((specAskOnce silentBackend 0).1, st2) ∧
      st2.sendCount = 0 + (specAskOnce silentBackend 0).2 :=
  ask_once_protocol silentBackend boundClient rfl (fun _ => rfl)

theorem carMany_ign (rows : List CarRow) (key : String) (value : Json)
    (ign : List String) :
    carMany rows (retrieveMeta key value ign) =
      setIgnoredKeys ign (carMany rows (retrieveMeta key value [])) := by
  cases rows with
  | nil => simp [carMany, retrieveMeta, setIgnoredKeys]
  | cons r rest =>
    cases rest with
    | nil => simp [carMany, retrieveMeta, setIgnoredKeys]
    | cons r2 rest2 => simp [carMany, retrieveMeta, setIgnoredKeys]

/-- C8: on a query with several identifying fields, `car_retrieve` behaves
exactly as on the query holding only the single highest-priority present
non-empty field — the lower-priority fields appear in `ignored_keys` and
nowhere else. -/
theorem car_retrieve_single_key (cars : List CarRow) (query : Dict)
    (key : String) (ignored : List String)
    (h : providedKeys query = key :: ignored) :
    car_retrieve cars query =
      setIgnoredKeys ignored
        (car_retrieve cars [(key, (dGet query key).getD .null)]) := by
  have hkmem : key ∈ providedKeys query := by rw [h] ; exact List.mem_cons_self _ _
  have hk2 := List.mem_filter.mp (by simpa [providedKeys] using hkmem)
  obtain ⟨hkp, hkcond⟩ := hk2
  have hne : pyStrip (pyStr ((dGet query key).getD .null)) ≠ "" := by
    have := (Bool.and_eq_true _ _).mp hkcond
    simpa using this.2
  have hne' : decide (pyStrip (pyStr ((dGet query key).getD .null)) ≠ "") = true :=
    decide_eq_true hne
  have hval0 : dGet [(key, (dGet query key).getD .null)] key =
      some ((dGet query key).getD .null) := by simp [dGet]
  have hsingle : providedKeys [(key, (dGet query key).getD .null)] = [key] := by
    have hmem5 : key = "car_id" ∨ key = "vin" ∨ key = "model" ∨
        key = "make" ∨ key = "year" := by simpa [PRIORITY] using hkp
    rcases hmem5 with rfl | rfl | rfl | rfl | rfl <;>
      simp [providedKeys, PRIORITY, presentNonEmpty, dHas, hval0, hne']
  have hval : (dGet [(key, (dGet query key).getD .null)] key).getD .null =
      (dGet query key).getD .null := by simp [dGet]
  have hmem5 : key = "car_id" ∨ key = "vin" ∨ key = "model" ∨
      key = "make" ∨ key = "year" := by simpa [PRIORITY] using hkp
  rcases hmem5 with rfl | rfl | rfl | rfl | rfl
  · -- car_id
    simp only [car_retrieve, h, hsingle, hval]
    cases hint : pyToInt ((dGet query "car_id").getD .null) with
    | none => simp [setIgnoredKeys]
    | some n =>
      simp only []
      cases hfind : cars.find? (fun r => r.id = n) with
      | none => simp [hfind, retrieveMeta, setIgnoredKeys]
      | some r => simp [hfind, retrieveMeta, setIgnoredKeys]
  · -- vin
    simp only [car_retrieve, h, hsingle, hval]
    simp only [show ("vin" = "car_id" ∨ "vin" = "year") = False by simp]
    simp only [if_false]
    exact carMany_ign _ _ _ _
  · -- model
    simp only [car_retrieve, h, hsingle, hval]
    simp only [show ("model" = "car_id" ∨ "model" = "year") = False by simp]
    simp only [if_false]
    exact carMany_ign _ _ _ _
  · -- make
    simp only [car_retrieve, h, hsingle, hval]
    simp only [show ("make" = "car_id" ∨ "make" = "year") = False by simp]
    simp only [if_false]
    exact carMany_ign _ _ _ _
  · -- year
    simp only [car_retrieve, h, hsingle, hval]
    cases hint : pyToInt ((dGet query "year").getD .null) with
    | none => simp [setIgnoredKeys]
    | some n =>
      simp only []
      exact carMany_ign _ _ _ _

/-- Witness for C8 at a two-field query: vin wins, make is ignored. -/
theorem car_retrieve_single_key_witness :
    car_retrieve [] [("vin", Json.str "V"), ("make", Json.str "Toyota")] =
      setIgnoredKeys ["make"]
        (car_retrieve []
          [("vin", (dGet [("vin", Json.str "V"), ("make", Json.str "Toyota")] "vin").getD .null)]) :=
  car_retrieve_single_key [] [("vin", Json.str "V"), ("make", Json.str "Toyota")]
    "vin" ["make"] rfl

/-- C3 counterexample: with six pickups for the one matching car, the
dispatcher\x27s AMBIGUOUS result carries all six candidate ids — the
candidate list is not bounded by 5. -/
theorem pickup_candidates_uncapped :
    (dispatch_pickup_retrieve carsSix pickupsSix pickupArgsSix).code =
      some "AMBIGUOUS" ∧
    resField (dispatch_pickup_retrieve carsSix pickupsSix pickupArgsSix)
        "pickup_ids" =
      some (.arr [.int 1, .int 2, .int 3, .int 4, .int 5, .int 6]) := ⟨rfl, rfl⟩

/-- C3 (amended): both resolutions follow the zero/one/many policy and
never silently pick among several matches; the *vehicle* candidate
preview is capped at 5 (equal to the true count when that count is at
most 5), while the *pickup* candidate list carries the full match set,
uncapped. -/
theorem resolution_trichotomy :
    (∀ (cars : List CarRow) (query : Dict) (key : String) (ign : List String)
        (v : Json),
      providedKeys query = key :: ign →
      (key = "vin" ∨ key = "model" ∨ key = "make" ∨ key = "year") →
      carLookupValue query key = some v →
      ((carFilter cars key v = [] →
         (car_retrieve cars query).status = "error" ∧
         (car_retrieve cars query).code = some "NOT_FOUND") ∧
       (∀ r, carFilter cars key v = [r] →
         (car_retrieve cars query).status = "success" ∧
         resField (car_retrieve cars query) "car" = some (carToJson r)) ∧
       (∀ r1 r2 rs, carFilter cars key v = r1 :: r2 :: rs →
         (car_retrieve cars query).status = "unsure" ∧
         (car_retrieve cars query).code = some "AMBIGUOUS" ∧
         resField (car_retrieve cars query) "candidates" =
           some (.arr (((r1 :: r2 :: rs).take 5).map candJson)) ∧
         resField (car_retrieve cars query) "car" = none ∧
         ((r1 :: r2 :: rs).take 5).length = min 5 (r1 :: r2 :: rs).length))) ∧
    (∀ (cars : List CarRow) (pickups : List PickupRow) (args : Dict) (cid : Json),
      pyTruthy ((dGet args "pick_up_id").getD .null) = false →
      (carIdentFields args ["car_id", "vin", "make", "model", "year"]).isEmpty = false →
      (car_retrieve cars
        (carIdentFields args ["car_id", "vin", "make", "model", "year"])).status = "success" →
      cid = (jObjGet ((jObjGet
          ((car_retrieve cars
            (carIdentFields args ["car_id", "vin", "make", "model", "year"])).data.getD
            (.obj [])) "car").getD (.obj [])) "id").getD .null →
      pyTruthy cid = true →
      ((pickups.filter (fun p => sqlEq p.car_id cid) = [] →
         (dispatch_pickup_retrieve cars pickups args).code = some "NOT_FOUND") ∧
       (∀ p, pickups.filter (fun p2 => sqlEq p2.car_id cid) = [p] →
         dispatch_pickup_retrieve cars pickups args =
           pickup_retrieve pickups (.int p.pick_up_id)) ∧
       (∀ p q ps, pickups.filter (fun p2 => sqlEq p2.car_id cid) = p :: q :: ps →
         (dispatch_pickup_retrieve cars pickups args).code = some "AMBIGUOUS" ∧
         resField (dispatch_pickup_retrieve cars pickups args) "pickup_ids" =
           some (.arr ((p :: q :: ps).map (fun x => Json.int x.pick_up_id)))))) := by
  constructor
  · intro cars query key ign v h hk4 hv
    have hred : car_retrieve cars query =
        carMany (carFilter cars key v) (retrieveMeta key v ign) := by
      rcases hk4 with rfl | rfl | rfl | rfl
      · have hv2 : v = (dGet query "vin").getD .null := by
          simpa [carLookupValue] using hv.symm
        subst hv2
        simp [car_retrieve, h]
      · have hv2 : v = (dGet query "model").getD .null := by
          simpa [carLookupValue] using hv.symm
        subst hv2
        simp [car_retrieve, h]
      · have hv2 : v = (dGet query "make").getD .null := by
          simpa [carLookupValue] using hv.symm
        subst hv2
        simp [car_retrieve, h]
      · simp only [carLookupValue, if_pos (Or.inr rfl)] at hv
        obtain ⟨n, hn, hvn⟩ := Option.map_eq_some'.mp hv
        subst hvn
        simp [car_retrieve, h, hn]
    refine ⟨?_, ?_, ?_⟩
    · intro hrows
      rw [hred, hrows]
      exact ⟨rfl, rfl⟩
    · intro r hrows
      rw [hred, hrows]
      refine ⟨rfl, ?_⟩
      simp [carMany, resField, jObjGet, retrieveMeta, dGet]
    · intro r1 r2 rs hrows
      rw [hred, hrows]
      refine ⟨rfl, rfl, ?_, ?_, List.length_take 5 _⟩
      · simp [carMany, resField, jObjGet, retrieveMeta, dGet]
      · simp [carMany, resField, jObjGet, retrieveMeta, dGet]
  · intro cars pickups args cid hp hq hs hcid hc
    have hred : dispatch_pickup_retrieve cars pickups args =
        (match pickups.filter (fun p => sqlEq p.car_id cid) with
         | [] =>
           {status := "error", code := some "NOT_FOUND",
            message := "I couldn\x27t find a pickup scheduled for that car.",
            data := some (.obj [("car_id", cid)])}
         | [p] => pickup_retrieve pickups (.int p.pick_up_id)
         | ps =>
           {status := "error", code := some "AMBIGUOUS",
            message := "I found multiple pickups for this car. Could you provide more details (like the address or pickup date) to help me identify which one you mean?",
            data := some (.obj [("car_id", cid),
              ("pickup_ids", .arr (ps.map (fun p => Json.int p.pick_up_id)))])}) := by
      simp only [dispatch_pickup_retrieve]
      rw [if_neg (by simp [hp])]
      rw [if_neg (by simp [hq])]
      rw [hs]
      rw [if_neg (by decide)]
      rw [if_neg (by decide)]
      rw [← hcid]
      rw [if_neg (by simp [hc])]
    refine ⟨?_, ?_, ?_⟩
    · intro hrows
      rw [hred, hrows]
    · intro p hrows
      rw [hred, hrows]
    · intro p q ps hrows
      rw [hred, hrows]
      exact ⟨rfl, by simp [resField, jObjGet, dGet]⟩

/-- Witness for the amended C3 statement: an empty vehicle fixture gives
NOT_FOUND, a two-car year query gives the capped AMBIGUOUS preview, and
the six-pickup fixture gives the uncapped AMBIGUOUS list. -/
theorem resolution_trichotomy_witness :
    ((car_retrieve ([] : List CarRow) [("model", Json.str "Civic")]).status = "error" ∧
     (car_retrieve ([] : List CarRow) [("model", Json.str "Civic")]).code =
       some "NOT_FOUND") ∧
    ((car_retrieve [{ id := 1, year := .int 2020 }, { id := 2, year := .int 2020 }]
        [("year", Json.int 2020)]).status = "unsure" ∧
     (car_retrieve [{ id := 1, year := .int 2020 }, { id := 2, year := .int 2020 }]
        [("year", Json.int 2020)]).code = some "AMBIGUOUS") ∧
    ((dispatch_pickup_retrieve carsSix pickupsSix pickupArgsSix).code =
       some "AMBIGUOUS" ∧
     resField (dispatch_pickup_retrieve carsSix pickupsSix pickupArgsSix)
         "pickup_ids" =
       some (.arr (pickupsSix.map (fun x => Json.int x.pick_up_id)))) :=
  ⟨(resolution_trichotomy.1 [] [("model", Json.str "Civic")] "model" []
      (Json.str "Civic") rfl (Or.inr (Or.inl rfl)) rfl).1 rfl,
   (fun h => ⟨h.1, h.2.1⟩)
     ((resolution_trichotomy.1
        [{ id := 1, year := .int 2020 }, { id := 2, year := .int 2020 }]
        [("year", Json.int 2020)] "year" [] (Json.int 2020) rfl
        (Or.inr (Or.inr (Or.inr rfl))) rfl).2.2
        { id := 1, year := .int 2020 } { id := 2, year := .int 2020 } [] rfl),
   (resolution_trichotomy.2 carsSix pickupsSix pickupArgsSix (Json.int 1)
      rfl rfl rfl rfl rfl).2.2
      { pick_up_id := 1, car_id := .int 1 } { pick_up_id := 2, car_id := .int 1 }
      [{ pick_up_id := 3, car_id := .int 1 }, { pick_up_id := 4, car_id := .int 1 },
       { pick_up_id := 5, car_id := .int 1 }, { pick_up_id := 6, car_id := .int 1 }]
      rfl⟩

/-- C2 counterexample: a car_update dispatch carrying the restricted field
but no explicit car_id performs a resolution lookup (count 1, not 0)
before the FORBIDDEN short-circuit — and when the lookup finds nothing it
returns NOT_FOUND instead of FORBIDDEN. -/
theorem dispatch_lookup_before_forbidden :
    (dispatch_car_update carsRestricted argsRestricted).1.code =
      some "FORBIDDEN" ∧
    (dispatch_car_update carsRestricted argsRestricted).2.2.1 = 1 ∧
    (dispatch_car_update ([] : List CarRow) argsRestricted).1.code =
      some "NOT_FOUND" := ⟨rfl, rfl, rfl⟩

theorem dHas_filter_of_dGet (p : String × Json → Bool) (args : Dict)
    (k : String) (v : Json) (hget : dGet args k = some v)
    (hkeep : p (k, v) = true) : dHas (args.filter p) k = true := by
  induction args with
  | nil => simp [dGet] at hget
  | cons kv rest ih =>
    by_cases hk : kv.1 = k
    · have hv : kv.2 = v := by
        simp [dGet, List.find?_cons, hk] at hget
        exact hget
      have : p kv = true := by
        obtain ⟨k1, v1⟩ := kv
        simp only at hk hv
        rw [hk, hv]
        exact hkeep
      simp [List.filter_cons, this, dHas, hk]
    · have hget2 : dGet rest k = some v := by
        simpa [dGet, List.find?_cons, hk] using hget
      have := ih hget2
      by_cases hp : p kv = true
      · simp [List.filter_cons, hp, dHas] at this ⊢
        exact Or.inr this
      · simp only [List.filter_cons, if_neg hp, Bool.false_eq_true]
        simpa [dHas] using this

/-- C2 (amended): a mutation argument set carrying the business-restricted
field never reaches storage mutation: car_add always short-circuits with
FORBIDDEN and zero storage operations; car_update with an explicit car_id
likewise; car_update without a car_id first performs a read-only
resolution lookup (and may return NOT_FOUND or AMBIGUOUS instead of
FORBIDDEN), but in every case the table is unchanged and no update
statement runs. -/
theorem dispatch_restricted_never_mutates :
    (∀ (cars : List CarRow) (args : Dict) (lead : Json),
      dHas args "buyer_offer_cents" = true →
      (dispatch_car_add cars args lead).1.code = some "FORBIDDEN" ∧
      (dispatch_car_add cars args lead).2.1 = cars ∧
      (dispatch_car_add cars args lead).2.2.1 = 0 ∧
      (dispatch_car_add cars args lead).2.2.2 = 0) ∧
    (∀ (cars : List CarRow) (args : Dict) (v : Json),
      dGet args "buyer_offer_cents" = some v → isNull v = false →
      pyTruthy ((dGet args "car_id").getD .null) = true →
      (dispatch_car_update cars args).1.code = some "FORBIDDEN" ∧
      (dispatch_car_update cars args).2.1 = cars ∧
      (dispatch_car_update cars args).2.2.1 = 0 ∧
      (dispatch_car_update cars args).2.2.2 = 0) ∧
    (∀ (cars : List CarRow) (args : Dict) (v : Json),
      dGet args "buyer_offer_cents" = some v → isNull v = false →
      (dispatch_car_update cars args).2.1 = cars ∧
      (dispatch_car_update cars args).2.2.2 = 0) := by
  have hkeepGen : ∀ (args : Dict) (v : Json),
      dGet args "buyer_offer_cents" = some v → isNull v = false →
      dHas (args.filter keepPatchField) "buyer_offer_cents" = true := by
    intro args v hget hv
    exact dHas_filter_of_dGet _ args _ v hget (by simp [keepPatchField, hv])
  refine ⟨?_, ?_, ?_⟩
  · intro cars args lead h
    have hpatch : dHas (if dHas args "lead_id" then args
        else args ++ [("lead_id", lead)]) "buyer_offer_cents" = true := by
      by_cases hl : dHas args "lead_id" = true
      · simpa [hl] using h
      · simp only [hl, Bool.false_eq_true, if_false, ite_false]
        simp [dHas] at h ⊢
        exact h
    refine ⟨?_, ?_, ?_, ?_⟩ <;> simp [dispatch_car_add, hpatch]
  · intro cars args v hget hv ht
    have hk := hkeepGen args v hget hv
    refine ⟨?_, ?_, ?_, ?_⟩ <;>
      simp [dispatch_car_update, ht, carUpdateWithId, hk]
  · intro cars args v hget hv
    have hk := hkeepGen args v hget hv
    by_cases ht : pyTruthy ((dGet args "car_id").getD .null) = true
    · constructor <;> simp [dispatch_car_update, ht, carUpdateWithId, hk]
    · have ht' : pyTruthy ((dGet args "car_id").getD .null) = false := by
        simpa using ht
      simp only [dispatch_car_update]
      rw [if_neg (by simp [ht'])]
      by_cases hqe : (carIdentFields args ["vin", "make", "model", "year"]).isEmpty = true
      · simp [hqe]
      · rw [if_neg (by simp [hqe])]
        by_cases hse :
            (car_retrieve cars (carIdentFields args ["vin", "make", "model", "year"])).status = "error"
        · simp [hse]
        · rw [if_neg hse]
          by_cases hsu :
              (car_retrieve cars (carIdentFields args ["vin", "make", "model", "year"])).status = "unsure"
          · simp [hsu]
          · rw [if_neg hsu]
            by_cases hct : pyTruthy ((jObjGet ((jObjGet
                ((car_retrieve cars (carIdentFields args ["vin", "make", "model", "year"])).data.getD
                  (.obj [])) "car").getD (.obj [])) "id").getD .null) = true
            · rw [if_neg (by simp [hct])]
              constructor <;> simp [carUpdateWithId, hk]
            · rw [if_pos (by simpa using hct)]
              exact ⟨rfl, rfl⟩

/-- Witness for the amended C2 statement at concrete inputs. -/
theorem dispatch_restricted_never_mutates_witness :
    ((dispatch_car_add carsRestricted argsRestricted Json.null).1.code =
        some "FORBIDDEN" ∧
      (dispatch_car_add carsRestricted argsRestricted Json.null).2.1 =
        carsRestricted ∧
      (dispatch_car_add carsRestricted argsRestricted Json.null).2.2.1 = 0 ∧
      (dispatch_car_add carsRestricted argsRestricted Json.null).2.2.2 = 0) ∧
    ((dispatch_car_update carsRestricted argsRestricted).2.1 = carsRestricted ∧
      (dispatch_car_update carsRestricted argsRestricted).2.2.2 = 0) :=
  ⟨dispatch_restricted_never_mutates.1 carsRestricted argsRestricted Json.null rfl,
   dispatch_restricted_never_mutates.2.2 carsRestricted argsRestricted
     (Json.int 100) rfl rfl⟩

theorem next_temp_id_neg (cars : List CarRow) : _next_temp_car_id cars < 0 := by
  unfold _next_temp_car_id
  cases hm : (cars.map (fun r => r.id)).min? with
  | none => decide
  | some m =>
    by_cases h : m > 0
    · simp [h]
    · simp only [h, if_false]
      omega

theorem min_le_of_mem (l : List Int) (m a : Int) (hm : l.min? = some m)
    (ha : a ∈ l) : m ≤ a := by
  haveI : Std.Antisymm ((· : Int) ≤ ·) := ⟨fun h1 h2 => le_antisymm h1 h2⟩
  have h := (List.min?_eq_some_iff Int.le_refl (fun a b => min_choice a b)
    (fun a b c => le_min_iff)).mp hm
  exact h.2 a ha

theorem next_temp_id_fresh (cars : List CarRow) :
    ∀ r ∈ cars, _next_temp_car_id cars ≠ r.id := by
  intro r hr
  cases hm : (cars.map (fun x => x.id)).min? with
  | none =>
    have : (cars.map (fun x => x.id)) = [] := by
      simpa using List.min?_eq_none_iff.mp hm
    simp at this
    rw [this] at hr
    simp at hr
  | some m =>
    have hle : m ≤ r.id :=
      min_le_of_mem _ m r.id hm (List.mem_map_of_mem _ hr)
    unfold _next_temp_car_id
    rw [hm]
    by_cases h : m > 0
    · simp only [h, if_true, ite_true]
      omega
    · simp only [h, if_false, ite_false]
      omega

theorem car_add_insert_spec (cars : List CarRow) (patch : Dict) (vn : Json) :
    ∃ row, (car_add_insert cars patch vn).1.status = "success" ∧
      (car_add_insert cars patch vn).2.1 = cars ++ [row] ∧
      row.id = _next_temp_car_id cars := by
  refine ⟨_, rfl, rfl, rfl⟩

/-- C10: `car_add` upserts by VIN — an existing VIN updates that row\x27s
whitelisted fields and reports success, never a duplicate-key error — and
otherwise inserts a row whose id is -1 when the minimum id is absent or
positive and one less than the minimum otherwise; that id is negative and
fresh. -/
theorem car_add_upsert_or_insert :
    (∀ (cars : List CarRow) (patch : Dict) (r0 : CarRow),
      isNull (vinNormOf patch) = false →
      cars.find? (fun r => sqlEq r.vin (vinNormOf patch)) = some r0 →
      (car_add cars patch).1.status = "success" ∧
      (car_add cars patch).1.code = none ∧
      (car_add cars patch).2.1 =
        (if (upsertSanitized patch (vinNormOf patch)).isEmpty then cars
         else cars.map (fun r =>
           if r.id = r0.id then
             applyCarPatch r (upsertSanitized patch (vinNormOf patch))
           else r))) ∧
    (∀ (cars : List CarRow) (patch : Dict),
      (isNull (vinNormOf patch) = true ∨
        cars.find? (fun r => sqlEq r.vin (vinNormOf patch)) = none) →
      ∃ row, (car_add cars patch).1.status = "success" ∧
        (car_add cars patch).2.1 = cars ++ [row] ∧
        row.id = _next_temp_car_id cars ∧
        (cars = [] → row.id = -1) ∧
        (∀ m, (cars.map (fun r => r.id)).min? = some m →
          row.id = if 0 < m then -1 else m - 1) ∧
        row.id < 0 ∧ (∀ r ∈ cars, row.id ≠ r.id)) := by
  constructor
  · intro cars patch r0 hnn hfind
    by_cases hs : (upsertSanitized patch (vinNormOf patch)).isEmpty = true
    · refine ⟨?_, ?_, ?_⟩ <;> simp [car_add, hnn, hfind, hs]
    · refine ⟨?_, ?_, ?_⟩ <;> simp [car_add, hnn, hfind, hs]
  · intro cars patch hins
    have hcore : ∃ row, (car_add cars patch).1.status = "success" ∧
        (car_add cars patch).2.1 = cars ++ [row] ∧
        row.id = _next_temp_car_id cars := by
      rcases hins with hnull | hnone
      · obtain ⟨row, h1, h2, h3⟩ := car_add_insert_spec cars patch (vinNormOf patch)
        exact ⟨row, by simpa [car_add, hnull] using h1,
          by simpa [car_add, hnull] using h2, h3⟩
      · by_cases hn : isNull (vinNormOf patch) = true
        · obtain ⟨row, h1, h2, h3⟩ := car_add_insert_spec cars patch (vinNormOf patch)
          exact ⟨row, by simpa [car_add, hn] using h1,
            by simpa [car_add, hn] using h2, h3⟩
        · have hnn : isNull (vinNormOf patch) = false := by simpa using hn
          obtain ⟨row, h1, h2, h3⟩ := car_add_insert_spec cars patch (vinNormOf patch)
          exact ⟨row, by simpa [car_add, hnn, hnone] using h1,
            by simpa [car_add, hnn, hnone] using h2, h3⟩
    obtain ⟨row, h1, h2, h3⟩ := hcore
    refine ⟨row, h1, h2, h3, ?_, ?_, ?_, ?_⟩
    · intro hc
      rw [h3, hc]
      rfl
    · intro m hm
      rw [h3]
      unfold _next_temp_car_id
      rw [hm]
    · rw [h3]
      exact next_temp_id_neg cars
    · intro r hr
      rw [h3]
      exact next_temp_id_fresh cars r hr

/-- Witness for C10: upsert on a matching VIN, and a fresh negative id
insert when the VIN is absent. -/
theorem car_add_upsert_or_insert_witness :
    ((car_add carsRestricted [("vin", Json.str "VX"), ("mileage", Json.int 5)]).1.status = "success" ∧
     (car_add carsRestricted [("vin", Json.str "VX"), ("mileage", Json.int 5)]).1.code = none ∧
     (car_add carsRestricted [("vin", Json.str "VX"), ("mileage", Json.int 5)]).2.1 =
       (if (upsertSanitized [("vin", Json.str "VX"), ("mileage", Json.int 5)]
            (vinNormOf [("vin", Json.str "VX"), ("mileage", Json.int 5)])).isEmpty then
          carsRestricted
        else carsRestricted.map (fun r =>
          if r.id = (7 : Int) then
            applyCarPatch r (upsertSanitized [("vin", Json.str "VX"), ("mileage", Json.int 5)]
              (vinNormOf [("vin", Json.str "VX"), ("mileage", Json.int 5)]))
          else r))) ∧
    (∃ row, (car_add carsRestricted [("make", Json.str "Honda")]).1.status = "success" ∧
      (car_add carsRestricted [("make", Json.str "Honda")]).2.1 = carsRestricted ++ [row] ∧
      row.id = _next_temp_car_id carsRestricted ∧
      (carsRestricted = [] → row.id = -1) ∧
      (∀ m, (carsRestricted.map (fun r => r.id)).min? = some m →
        row.id = if 0 < m then -1 else m - 1) ∧
      row.id < 0 ∧ (∀ r ∈ carsRestricted, row.id ≠ r.id)) :=
  ⟨by
    have h := car_add_upsert_or_insert.1 carsRestricted
      [("vin", Json.str "VX"), ("mileage", Json.int 5)]
      { id := 7, vin := .str "VX" } rfl rfl
    exact h,
   car_add_upsert_or_insert.2 carsRestricted [("make", Json.str "Honda")]
     (Or.inl rfl)⟩

/-- C7: a scheduling add for a buyer at an already-occupied (normalized)
time returns TIME_ALREADY_BOOKED carrying the existing entry, inserts
nothing, and the controller\x27s user-facing message is exactly "The buyer
is already booked at \<time\>. Please choose another time." with \<time\>
the existing entry\x27s schedule_time. -/
theorem add_buyer_schedule_time_conflict
    (isoNorm : String → Option String) (buyers : List Int)
    (schedules : List SchedRow) (bidJ : Json) (patch : Dict)
    (bid : Int) (row : SchedRow)
    (hb : pyToInt bidJ = some bid)
    (hpe : patch.isEmpty = false)
    (hd : schedDesc patch ≠ "")
    (hpr : schedPr patch ∈ PRIORITIES)
    (hst : schedSt isoNorm patch ≠ "")
    (hbu : bid ∈ buyers)
    (hex : schedules.find? (fun p =>
      p.buyer_id = bid ∧ sqlEq p.schedule_time (.str (schedSt isoNorm patch))) =
      some row) :
    (add_buyer_schedule isoNorm buyers schedules bidJ patch).1.status = "error" ∧
    (add_buyer_schedule isoNorm buyers schedules bidJ patch).1.code =
      some "TIME_ALREADY_BOOKED" ∧
    resField (add_buyer_schedule isoNorm buyers schedules bidJ patch).1
      "existing_schedule" = some (existingSchedJson row) ∧
    (add_buyer_schedule isoNorm buyers schedules bidJ patch).2 = schedules ∧
    controller_tool_reply (add_buyer_schedule isoNorm buyers schedules bidJ patch).1 =
      some ("The buyer is already booked at " ++ pyStr row.schedule_time ++
        ". Please choose another time.") := by
  have hres : add_buyer_schedule isoNorm buyers schedules bidJ patch =
      ({status := "error", code := some "TIME_ALREADY_BOOKED",
        message := "The buyer is already booked at " ++ schedSt isoNorm patch ++
          ". Please choose another time.",
        data := some (.obj [("existing_schedule", existingSchedJson row),
          ("requested_time", .str (schedSt isoNorm patch))])}, schedules) := by
    simp only [add_buyer_schedule, hb]
    rw [if_neg (by simp [hpe])]
    rw [if_neg hd]
    rw [if_neg (by simp [hpr])]
    rw [if_neg hst]
    rw [if_neg (by simp [hbu])]
    rw [hex]
  rw [hres]
  refine ⟨rfl, rfl, ?_, rfl, ?_⟩
  · simp [resField, jObjGet, dGet]
  · simp [controller_tool_reply, resField, jObjGet, dGet, existingSchedJson]

/-- Witness for C7 at a concrete fixture: buyer 5 already booked at the
requested normalized time. -/
theorem add_buyer_schedule_time_conflict_witness :
    (add_buyer_schedule (fun s => some s) [5]
      [{ id := 1, buyer_id := 5, description := .str "meet",
         schedule_time := .str "2025-01-01 10:00:00", priority := .str "Medium" }]
      (.int 5)
      [("description", Json.str "call"),
       ("schedule_time", Json.str "2025-01-01 10:00:00")]).1.status = "error" ∧
    (add_buyer_schedule (fun s => some s) [5]
      [{ id := 1, buyer_id := 5, description := .str "meet",
         schedule_time := .str "2025-01-01 10:00:00", priority := .str "Medium" }]
      (.int 5)
      [("description", Json.str "call"),
       ("schedule_time", Json.str "2025-01-01 10:00:00")]).1.code =
      some "TIME_ALREADY_BOOKED" ∧
    resField (add_buyer_schedule (fun s => some s) [5]
      [{ id := 1, buyer_id := 5, description := .str "meet",
         schedule_time := .str "2025-01-01 10:00:00", priority := .str "Medium" }]
      (.int 5)
      [("description", Json.str "call"),
       ("schedule_time", Json.str "2025-01-01 10:00:00")]).1 "existing_schedule" =
      some (existingSchedJson
        { id := 1, buyer_id := 5, description := .str "meet",
          schedule_time := .str "2025-01-01 10:00:00", priority := .str "Medium" }) ∧
    (add_buyer_schedule (fun s => some s) [5]
      [{ id := 1, buyer_id := 5, description := .str "meet",
         schedule_time := .str "2025-01-01 10:00:00", priority := .str "Medium" }]
      (.int 5)
      [("description", Json.str "call"),
       ("schedule_time", Json.str "2025-01-01 10:00:00")]).2 =
      [{ id := 1, buyer_id := 5, description := .str "meet",
         schedule_time := .str "2025-01-01 10:00:00", priority := .str "Medium" }] ∧
    controller_tool_reply (add_buyer_schedule (fun s => some s) [5]
      [{ id := 1, buyer_id := 5, description := .str "meet",
         schedule_time := .str "2025-01-01 10:00:00", priority := .str "Medium" }]
      (.int 5)
      [("description", Json.str "call"),
       ("schedule_time", Json.str "2025-01-01 10:00:00")]).1 =
      some ("The buyer is already booked at " ++
        pyStr (Json.str "2025-01-01 10:00:00") ++
        ". Please choose another time.") :=
  add_buyer_schedule_time_conflict (fun s => some s) [5]
    [{ id := 1, buyer_id := 5, description := .str "meet",
       schedule_time := .str "2025-01-01 10:00:00", priority := .str "Medium" }]
    (.int 5)
    [("description", Json.str "call"),
     ("schedule_time", Json.str "2025-01-01 10:00:00")]
    5
    { id := 1, buyer_id := 5, description := .str "meet",
      schedule_time := .str "2025-01-01 10:00:00", priority := .str "Medium" }
    rfl rfl (by decide) (by decide) (by decide) (by decide) rfl

/-- C9 counterexample: on text holding two balanced objects, the code\x27s
fallback is the greedy span from the first opening to the last closing
brace, which does not parse, so no plan is produced — while the claimed
first-balanced-substring extractor would succeed on the first object. -/
theorem extract_json_block_not_balanced :
    extract_json_block "\x7b\"a\": 1\x7d and \x7b\"b\": 2\x7d" = none ∧
    specExtractBalanced "\x7b\"a\": 1\x7d and \x7b\"b\": 2\x7d" =
      some (.obj [("a", .int 1)]) := ⟨rfl, rfl⟩

/-- C9 (amended): the plan parser first searches for a ```json fenced
object and parses its contents; only when no fence matches does it fall
back to the greedy span from the first opening brace to the last closing
brace of the text (not the first balanced substring); it returns no plan
instead of raising when neither stage yields parseable JSON. -/
theorem extract_json_block_two_stage (t : String) :
    (∀ g, findFence t.data = some g →
      extract_json_block t = json_loads (String.mk g)) ∧
    (findFence t.data = none →
      extract_json_block t =
        match specGreedySpan t.data with
        | some cs2 => json_loads (String.mk cs2)
        | none => none) := by
  constructor
  · intro g hg
    simp [extract_json_block, hg]
  · intro hn
    rw [← braceCandidate_eq_specGreedySpan]
    simp only [extract_json_block, hn]
    cases braceCandidate t.data <;> rfl

/-- Witness for the amended C9 statement at concrete inputs: one with a
fence and one without. -/
theorem extract_json_block_two_stage_witness :
    (extract_json_block "say ```json \x7b\"a\": 1\x7d ``` ok" =
      json_loads (String.mk "\x7b\"a\": 1\x7d".data)) ∧
    (extract_json_block "x \x7b\"a\": 1\x7d y" =
      match specGreedySpan "x \x7b\"a\": 1\x7d y".data with
      | some cs2 => json_loads (String.mk cs2)
      | none => none) :=
  ⟨(extract_json_block_two_stage "say ```json \x7b\"a\": 1\x7d ``` ok").1
      "\x7b\"a\": 1\x7d".data rfl,
   (extract_json_block_two_stage "x \x7b\"a\": 1\x7d y").2 rfl⟩

/-- C5 counterexample: the chat-action normalizer and the tool-result
normalizer disagree on a code-fenced JSON reply: the tool path strips the
fence and extracts Hello, the chat path leaves the text untouched. -/
theorem normalizers_differ :
    chatNormalize "```json\n\x7b\"message\": \"Hello\"\x7d\n```" ≠
      toolNormalize "```json\n\x7b\"message\": \"Hello\"\x7d\n```" := by
  intro h
  rw [show toolNormalize "```json\n\x7b\"message\": \"Hello\"\x7d\n```" = "Hello"
      from rfl] at h
  rw [show chatNormalize "```json\n\x7b\"message\": \"Hello\"\x7d\n```" =
      "```json\n\x7b\"message\": \"Hello\"\x7d\n```" from rfl] at h
  exact absurd h (by decide)

/-- C5 (amended): the two normalization paths are separate copies, not one
shared normalizer; they agree on replies that are already stripped, carry
no code fences and do not parse as JSON, and diverge elsewhere (fence
stripping and the "content" field exist only on the tool path, the
structured-data fallback only on the chat path). -/
theorem normalizers_agree_on_unparseable (s : String)
    (hstrip : pyStrip s = s)
    (hlead : stripLeadingFence s.data = s.data)
    (htrail : stripTrailingFence s.data = s.data)
    (hparse : json_loads s = none) :
    chatNormalize s = toolNormalize s := by
  have hchat : chatNormalize s = s := by
    simp only [chatNormalize, hstrip]
    by_cases hq : (startsWithL ['"'] s.data ∧ s.data.getLast? = some '"')
    · simp [hq, hparse]
    · simp [hq, hparse]
  have htool : toolNormalize s = s := by
    simp only [toolNormalize, hstrip, hlead, string_mk_data, htrail, hparse]
  rw [hchat, htool]

/-- Witness for the amended C5 statement at a concrete plain-text reply. -/
theorem normalizers_agree_on_unparseable_witness :
    chatNormalize "Hello there" = toolNormalize "Hello there" :=
  normalizers_agree_on_unparseable "Hello there" rfl rfl rfl rfl

/-- C6 counterexample: no single normalizer satisfies all three claimed
properties at once: the chat-path normalizer leaves the code-fenced
\x7b"message": "Hello"\x7d reply unchanged instead of yielding Hello, and
the tool-result-path normalizer returns the raw structured payload instead
of the fallback sentence. -/
theorem response_normalizer_claim_fails :
    chatNormalize "```json\n\x7b\"message\": \"Hello\"\x7d\n```" ≠ "Hello" ∧
    toolNormalize "\x7b\"schedules\": [\"2025-01-03 10:00:00\"]\x7d" ≠
      FALLBACK_SENTENCE := by
  constructor
  · intro h
    rw [show chatNormalize "```json\n\x7b\"message\": \"Hello\"\x7d\n```" =
        "```json\n\x7b\"message\": \"Hello\"\x7d\n```" from rfl] at h
    exact absurd h (by decide)
  · intro h
    rw [show toolNormalize "\x7b\"schedules\": [\"2025-01-03 10:00:00\"]\x7d" =
        "\x7b\"schedules\": [\"2025-01-03 10:00:00\"]\x7d" from rfl] at h
    exact absurd h (by decide)

/-- C6 (amended): the three claimed behaviors hold, but split across the
two normalizers: the tool path turns the code-fenced
\x7b"message": "Hello"\x7d reply into Hello but passes structured payloads
through raw; the chat path substitutes the fallback sentence for mappings
with array or nested-mapping values but leaves fenced replies untouched;
both leave plain unparseable text unchanged. -/
theorem response_normalizer_amended :
    toolNormalize "```json\n\x7b\"message\": \"Hello\"\x7d\n```" = "Hello" ∧
    chatNormalize "Hello" = "Hello" ∧
    toolNormalize "Hello" = "Hello" ∧
    chatNormalize "\x7b\"schedules\": [\"2025-01-03 10:00:00\"]\x7d" =
      FALLBACK_SENTENCE ∧
    toolNormalize "\x7b\"schedules\": [\"2025-01-03 10:00:00\"]\x7d" =
      "\x7b\"schedules\": [\"2025-01-03 10:00:00\"]\x7d" ∧
    chatNormalize "```json\n\x7b\"message\": \"Hello\"\x7d\n```" =
      "```json\n\x7b\"message\": \"Hello\"\x7d\n```" :=
  ⟨rfl, rfl, rfl, rfl, rfl, rfl⟩

/-- C1: the plan validator accepts exactly the chat/tool shapes the claim
describes and otherwise returns the first violation in the claim\x27s order,
with the code\x27s message for it. -/
theorem validate_plan_eq_specFirstViolation (p : Json) :
    validate_plan p = (specFirstViolation p).map violationMsg := by
  cases p with
  | obj plan =>
    by_cases hc : isActionEq plan "chat" = true
    · cases ha : dGet plan "answer" with
      | none => simp [validate_plan, specFirstViolation, hc, ha, violationMsg]
      | some v =>
        cases v <;> simp [validate_plan, specFirstViolation, hc, ha, violationMsg]
    · by_cases ht : isActionEq plan "tool" = true
      · cases hn : dGet plan "name" with
        | none =>
          simp [validate_plan, specFirstViolation, hc, ht, hn, nameAllowed,
            violationMsg]
        | some v =>
          cases v with
          | str s =>
            by_cases hmem : s ∈ ALLOWED_TOOL_NAMES
            · cases harg : dGet plan "args" with
              | none =>
                simp [validate_plan, specFirstViolation, hc, ht, hn, harg,
                  nameAllowed, hmem, violationMsg]
              | some a =>
                cases a with
                | obj argl =>
                  simp only [validate_plan, specFirstViolation, hc, ht, hn,
                    harg, nameAllowed, hmem]
                  split_ifs <;>
                    simp_all [validate_plan, specFirstViolation, hc, ht, hn,
                      harg, nameAllowed, hmem, violationMsg]
                | null =>
                  simp [validate_plan, specFirstViolation, hc, ht, hn, harg,
                    nameAllowed, hmem, violationMsg]
                | bool b =>
                  simp [validate_plan, specFirstViolation, hc, ht, hn, harg,
                    nameAllowed, hmem, violationMsg]
                | int n =>
                  simp [validate_plan, specFirstViolation, hc, ht, hn, harg,
                    nameAllowed, hmem, violationMsg]
                | float f =>
                  simp [validate_plan, specFirstViolation, hc, ht, hn, harg,
                    nameAllowed, hmem, violationMsg]
                | str t =>
                  simp [validate_plan, specFirstViolation, hc, ht, hn, harg,
                    nameAllowed, hmem, violationMsg]
                | arr xs =>
                  simp [validate_plan, specFirstViolation, hc, ht, hn, harg,
                    nameAllowed, hmem, violationMsg]
            · simp [validate_plan, specFirstViolation, hc, ht, hn, nameAllowed,
                hmem, violationMsg]
          | null =>
            simp [validate_plan, specFirstViolation, hc, ht, hn, nameAllowed,
              violationMsg]
          | bool b =>
            simp [validate_plan, specFirstViolation, hc, ht, hn, nameAllowed,
              violationMsg]
          | int n =>
            simp [validate_plan, specFirstViolation, hc, ht, hn, nameAllowed,
              violationMsg]
          | float f =>
            simp [validate_plan, specFirstViolation, hc, ht, hn, nameAllowed,
              violationMsg]
          | arr xs =>
            simp [validate_plan, specFirstViolation, hc, ht, hn, nameAllowed,
              violationMsg]
          | obj kvs =>
            simp [validate_plan, specFirstViolation, hc, ht, hn, nameAllowed,
              violationMsg]
      · simp [validate_plan, specFirstViolation, hc, ht, violationMsg]
  | null => simp [validate_plan, specFirstViolation, violationMsg]
  | bool b => simp [validate_plan, specFirstViolation, violationMsg]
  | int n => simp [validate_plan, specFirstViolation, violationMsg]
  | float s => simp [validate_plan, specFirstViolation, violationMsg]
  | str s => simp [validate_plan, specFirstViolation, violationMsg]
  | arr xs => simp [validate_plan, specFirstViolation, violationMsg]

end Ava
